import Mathlib

/-!
Verification of the model-abstraction core of the pyar repository
(src/pyar/mlatom/models.py and src/pyar/mlatom/interfaces/torchani_interface.py)
against its natural-language specification.

Each section embeds the relevant Python code shallowly in Lean:
pure functions become Lean functions, in-place mutation becomes explicit
state passing, Python exceptions become Except/Option results, and numpy
floating-point numbers become exact rationals or reals.  Definitions follow
the source line by line; where the deciding code lives in a module of the
repository that is not part of the sources (pyar/mlatom/data.py,
pyar/mlatom/stats.py), the missing definition is modelled from the
specification text and marked as such in its doc comment.
-/

/-! ## Section 1: model.predict input validation (models.py lines 44-70)

The base class model.predict receives optional molecular_database and
molecule arguments.  The Python code is:

    if molecular_database != None:
        molecular_database = molecular_database
    elif molecule != None:
        molecular_database = data.molecular_database([molecule])
    else:
        errmsg = 'Either molecule or molecular_database should be provided in input'
        raise ValueError(errmsg)
    return molecular_database

A molecule is opaque for this section; a molecular database is a list of
molecules (data.molecular_database is an ordered collection of molecules). -/

/-- Errors raised by the embedded code paths. -/
inductive PyErr where
  | valueError (msg : String)
  deriving Repr, DecidableEq

/-- Shallow embedding of model.predict from models.py lines 62-70: the
universal input-validation prologue.  Returns the molecular database the
prediction proceeds on, or the raised ValueError. -/
def model_predict_validate (molecular_database : Option (List α))
    (molecule : Option α) : Except PyErr (List α) :=
  match molecular_database with
  | some db => .ok db
  | none =>
    match molecule with
    | some mol => .ok [mol]
    | none => .error (.valueError "Either molecule or molecular_database should be provided in input")

/-! ## Section 7 embedding: krr.train weight solve (models.py lines 617-633)

    if invert_matrix:
        self.alphas = np.dot(np.linalg.inv(kernel_matrix), yyref)
    else:
        if matrix_decomposition==None:
            try:
                c, low = cho_factor(...); self.alphas = cho_solve(...)
            except:
                c, low = lu_factor(...); self.alphas = lu_solve(...)
        elif matrix_decomposition.casefold()=='Cholesky'.casefold():
            cho path only
        elif matrix_decomposition.casefold()=='LU'.casefold():
            lu path only

The scipy factorizations are external numerical collaborators; each attempt
is modelled as an Except value (ok weights, or error when the factorization
raises).  The bare except around the whole Cholesky block catches any
failure there; a failure of the LU attempt has no handler and propagates.
If matrix_decomposition is some other string, no branch assigns alphas
(modelled as none). -/

/-- Result of one factorization-and-solve attempt by an external solver:
either the computed weight vector or a raised numerical exception. -/
abbrev SolveAttempt := Except PyErr (List ℚ)

/-- Shallow embedding of the weight-solving dispatch in krr.train
(models.py lines 617-633).  The three possible external attempts
(full inverse, Cholesky, LU) are passed in as their outcomes; the result
is none when no branch assigns self.alphas, and otherwise the Except
outcome of the path the code takes. -/
def krr_solve_alphas (invert_matrix : Bool) (matrix_decomposition : Option String)
    (inverse_attempt cholesky_attempt lu_attempt : SolveAttempt) :
    Option SolveAttempt :=
  if invert_matrix then
    some inverse_attempt
  else
    match matrix_decomposition with
    | none =>
      match cholesky_attempt with
      | .ok w => some (.ok w)
      | .error _ => some lu_attempt
    | some s =>
      if s.toLower = "Cholesky".toLower then some cholesky_attempt
      else if s.toLower = "LU".toLower then some lu_attempt
      else none

/-! ## Theorems for claim C1 -/

/-- C1 counterexample: calling predict with BOTH molecule and
molecular_database supplied does not raise InvalidArgument; the call
proceeds on the molecular_database (here [10, 20]), the molecule (30) is
ignored.  This refutes the claim that supplying both fails. -/
theorem C1_counterexample_both_supplied_ok :
    model_predict_validate (some [10, 20]) (some 30) = .ok [10, 20] := by
  rfl

/-- C1 (amended): if neither molecule nor molecular_database is supplied,
predict raises ValueError; if exactly one is supplied, the call proceeds on
that input; if both are supplied, the call proceeds on molecular_database
and no error is raised. -/
theorem C1_predict_input_validation (db : List α) (mol : α) :
    model_predict_validate (none : Option (List α)) (none : Option α)
      = .error (.valueError "Either molecule or molecular_database should be provided in input")
    ∧ model_predict_validate (some db) (none : Option α) = .ok db
    ∧ model_predict_validate (none : Option (List α)) (some mol) = .ok [mol]
    ∧ model_predict_validate (some db) (some mol) = .ok db := by
  exact ⟨rfl, rfl, rfl, rfl⟩

/-! ## Theorems for claim C7 -/

/-- C7: with invert_matrix = False and matrix_decomposition = None,
krr.train first attempts the Cholesky factorization: if it succeeds the
fitted weights come from it; if it raises, the LU attempt is used as
fallback; if the LU attempt also raises, that failure propagates as the
final outcome with no further retry. -/
theorem C7_cholesky_then_lu_fallback
    (inv cho lu : SolveAttempt) (w : List ℚ) (e e2 : PyErr) :
    (cho = .ok w →
      krr_solve_alphas false none inv cho lu = some (.ok w))
    ∧ (cho = .error e →
      krr_solve_alphas false none inv cho lu = some lu)
    ∧ (cho = .error e → lu = .error e2 →
      krr_solve_alphas false none inv cho lu = some (.error e2)) := by
  refine ⟨?_, ?_, ?_⟩
  · intro h; simp [krr_solve_alphas, h]
  · intro h; simp [krr_solve_alphas, h]
  · intro h h2; simp [krr_solve_alphas, h, h2]

/-- C7 witness: concrete instantiation of the fallback chain. -/
theorem C7_cholesky_then_lu_fallback_witness :
    krr_solve_alphas false none (.ok [0]) (.error (.valueError "LinAlgError")) (.error (.valueError "LU failed"))
      = some (.error (.valueError "LU failed")) := by
  exact (C7_cholesky_then_lu_fallback (.ok [0]) _ _ [0]
    (.valueError "LinAlgError") (.valueError "LU failed")).2.2 rfl rfl

/-! ## Section 6: ml_model.cross_validation (models.py lines 456-470)

    nsplits = len(cv_splits_molecular_databases)
    for ii in range(nsplits):
        subtraining_molecular_database = data.molecular_database()
        for jj in range(nsplits):
            if ii != jj: subtraining_molecular_database.molecules += cv_splits_molecular_databases[jj].molecules
        validation_molecular_database = cv_splits_molecular_databases[ii]
        self.train(molecular_database=subtraining_molecular_database, **training_kwargs)
        self.predict(molecular_database=validation_molecular_database, **prediction_kwargs)
        self.reset()

Molecules are identified by natural numbers; a split database is the list of
its molecule ids.  The train/predict/reset calls on the model are recorded
as an event trace in program order. -/

/-- One model operation performed by the cross-validation loop. -/
inductive CVEvent where
  | train (db : List ℕ)
  | predict (db : List ℕ)
  | reset
  deriving Repr, DecidableEq

/-- Whether an event is a training call. -/
def CVEvent.isTrain : CVEvent → Bool
  | .train _ => true
  | _ => false

/-- Whether an event is a prediction call. -/
def CVEvent.isPredict : CVEvent → Bool
  | .predict _ => true
  | _ => false

/-- Whether an event is a reset call. -/
def CVEvent.isReset : CVEvent → Bool
  | .reset => true
  | _ => false

/-- Shallow embedding of the inner loop of cross_validation building the
subtraining database for fold ii: the molecules of every split jj with
ii != jj, concatenated in ascending jj order. -/
def cv_subtraining_db (splits : List (List ℕ)) (ii : ℕ) : List ℕ :=
  (List.range splits.length).foldl
    (fun acc jj => if ii ≠ jj then acc ++ splits.getD jj [] else acc) []

/-- Shallow embedding of ml_model.cross_validation as the trace of model
operations it performs, in program order. -/
def cross_validation_trace (splits : List (List ℕ)) : List CVEvent :=
  (List.range splits.length).flatMap (fun ii =>
    [.train (cv_subtraining_db splits ii), .predict (splits.getD ii []), .reset])

/-- All molecules receiving a prediction across the trace, fold order. -/
def predicted_molecules (tr : List CVEvent) : List ℕ :=
  (tr.filterMap (fun e => match e with | .predict db => some db | _ => none)).flatten

lemma cv_foldl_filter (i : ℕ) (g : ℕ → List ℕ) (l : List ℕ) (acc : List ℕ) :
    l.foldl (fun acc jj => if i ≠ jj then acc ++ g jj else acc) acc
      = acc ++ ((l.filter (fun jj => i ≠ jj)).map g).flatten := by
  induction l generalizing acc with
  | nil => simp
  | cons a tl ih =>
    rw [List.foldl_cons, List.filter_cons]
    by_cases h : i ≠ a
    · rw [if_pos h, ih, if_pos (by simpa using h)]
      simp [List.append_assoc]
    · rw [if_neg h, ih, if_neg (by simpa using h)]

/-- The subtraining database for fold i is the concatenation of the other
splits (all splits whose index differs from i, in order). -/
lemma cv_subtraining_db_eq (splits : List (List ℕ)) (i : ℕ) :
    cv_subtraining_db splits i
      = (((List.range splits.length).filter (fun jj => i ≠ jj)).map
          (fun jj => splits.getD jj [])).flatten := by
  simpa [cv_subtraining_db] using
    cv_foldl_filter i (fun jj => splits.getD jj []) (List.range splits.length) []

lemma range_map_getD (l : List (List ℕ)) :
    (List.range l.length).map (fun i => l.getD i []) = l := by
  apply List.ext_getElem
  · simp
  · intro i h1 h2
    simp [List.getD_eq_getElem?_getD, List.getElem?_eq_getElem h2]

lemma trace_aux_counts (l : List ℕ) (F G : ℕ → List ℕ) :
    ((l.flatMap fun ii => [CVEvent.train (F ii), CVEvent.predict (G ii), CVEvent.reset])).length
        = 3 * l.length
    ∧ ((l.flatMap fun ii => [CVEvent.train (F ii), CVEvent.predict (G ii), CVEvent.reset])).countP
        CVEvent.isTrain = l.length
    ∧ ((l.flatMap fun ii => [CVEvent.train (F ii), CVEvent.predict (G ii), CVEvent.reset])).countP
        CVEvent.isPredict = l.length
    ∧ ((l.flatMap fun ii => [CVEvent.train (F ii), CVEvent.predict (G ii), CVEvent.reset])).countP
        CVEvent.isReset = l.length := by
  induction l with
  | nil => simp
  | cons a tl ih =>
    obtain ⟨h1, h2, h3, h4⟩ := ih
    refine ⟨?_, ?_, ?_, ?_⟩ <;>
      · simp [List.countP_cons, h1, h2, h3, h4,
          CVEvent.isTrain, CVEvent.isPredict, CVEvent.isReset]
        try omega

lemma trace_aux_predicted (l : List ℕ) (F G : ℕ → List ℕ) :
    predicted_molecules (l.flatMap fun ii =>
        [CVEvent.train (F ii), CVEvent.predict (G ii), CVEvent.reset])
      = (l.map G).flatten := by
  induction l with
  | nil => simp [predicted_molecules]
  | cons a tl ih =>
    simp only [List.flatMap_cons, List.map_cons, List.flatten_cons, predicted_molecules,
      List.filterMap_append] at ih ⊢
    simp [ih]

lemma trace_aux_cycle (l : List ℕ) (F G : ℕ → List ℕ) (i : ℕ) (h : i < l.length) :
    (((l.flatMap fun ii => [CVEvent.train (F ii), CVEvent.predict (G ii), CVEvent.reset])).drop
        (3 * i)).take 3
      = [CVEvent.train (F (l.getD i 0)), CVEvent.predict (G (l.getD i 0)), CVEvent.reset] := by
  induction l generalizing i with
  | nil => simp at h
  | cons a tl ih =>
    cases i with
    | zero => simp
    | succ n =>
      rw [List.flatMap_cons, List.cons_append, List.cons_append, List.cons_append,
        List.nil_append, show 3 * (n + 1) = 3 * n + 1 + 1 + 1 by ring]
      simp only [List.drop_succ_cons]
      exact ih n (by simpa using h)

/-- C6: for every list of k cross-validation split databases,
cross_validation performs exactly k train-predict-reset cycles (3k model
operations: k trainings, k predictions, k resets); the i-th cycle trains on
the concatenation of the other k-1 splits and predicts on split i; and the
concatenation of the predicted folds is exactly the concatenation of the
input splits, so every input molecule receives a prediction exactly once
when the splits partition the input database. -/
theorem C6_cross_validation_folds (splits : List (List ℕ)) (i : ℕ)
    (h : i < splits.length) :
    (cross_validation_trace splits).length = 3 * splits.length
    ∧ (cross_validation_trace splits).countP CVEvent.isTrain = splits.length
    ∧ (cross_validation_trace splits).countP CVEvent.isPredict = splits.length
    ∧ (cross_validation_trace splits).countP CVEvent.isReset = splits.length
    ∧ ((cross_validation_trace splits).drop (3 * i)).take 3
        = [CVEvent.train ((((List.range splits.length).filter (fun jj => i ≠ jj)).map
              (fun jj => splits.getD jj [])).flatten),
           CVEvent.predict (splits.getD i []), CVEvent.reset]
    ∧ predicted_molecules (cross_validation_trace splits) = splits.flatten := by
  obtain ⟨h1, h2, h3, h4⟩ :=
    trace_aux_counts (List.range splits.length) (cv_subtraining_db splits)
      (fun ii => splits.getD ii [])
  have hlen : (List.range splits.length).length = splits.length := List.length_range _
  have hget : (List.range splits.length).getD i 0 = i := by
    simp [List.getD_eq_getElem?_getD, List.getElem?_range h]
  refine ⟨by simpa [cross_validation_trace, hlen] using h1,
    by simpa [cross_validation_trace, hlen] using h2,
    by simpa [cross_validation_trace, hlen] using h3,
    by simpa [cross_validation_trace, hlen] using h4, ?_, ?_⟩
  · have := trace_aux_cycle (List.range splits.length) (cv_subtraining_db splits)
      (fun ii => splits.getD ii []) i (by simpa [hlen] using h)
    rw [cross_validation_trace, this, hget, cv_subtraining_db_eq]
  · have := trace_aux_predicted (List.range splits.length) (cv_subtraining_db splits)
      (fun ii => splits.getD ii [])
    rw [cross_validation_trace, this, range_map_getD]

/-- C6 witness: the theorem instantiated at three singleton splits. -/
theorem C6_cross_validation_folds_witness :
    1 < ([[1], [2], [3]] : List (List ℕ)).length
    ∧ ((cross_validation_trace [[1], [2], [3]]).length = 3 * ([[1], [2], [3]] : List (List ℕ)).length
    ∧ (cross_validation_trace [[1], [2], [3]]).countP CVEvent.isTrain = ([[1], [2], [3]] : List (List ℕ)).length
    ∧ (cross_validation_trace [[1], [2], [3]]).countP CVEvent.isPredict = ([[1], [2], [3]] : List (List ℕ)).length
    ∧ (cross_validation_trace [[1], [2], [3]]).countP CVEvent.isReset = ([[1], [2], [3]] : List (List ℕ)).length
    ∧ ((cross_validation_trace [[1], [2], [3]]).drop (3 * 1)).take 3
        = [CVEvent.train ((((List.range ([[1], [2], [3]] : List (List ℕ)).length).filter (fun jj => 1 ≠ jj)).map
              (fun jj => ([[1], [2], [3]] : List (List ℕ)).getD jj [])).flatten),
           CVEvent.predict (([[1], [2], [3]] : List (List ℕ)).getD 1 []), CVEvent.reset]
    ∧ predicted_molecules (cross_validation_trace [[1], [2], [3]]) = ([[1], [2], [3]] : List (List ℕ)).flatten) :=
  ⟨by decide, C6_cross_validation_folds [[1], [2], [3]] 1 (by decide)⟩

/-! ## Section 9: hyperparameter value coercion (models.py lines 1151-1172)

    def __init__(self, value=None, optimization_space='linear', dtype=None, ...):
        self.dtype = dtype if dtype else None if value is None else type(value)
        self.value = value
        ...
    def __setattr__(self, key, value):
        if key == 'value':
            value = (value if isinstance(value, self.dtype) else self._cast_dtype(value)) if self.dtype else value
        if key == 'dtype':
            self._set_dtype_cast_method(value)
        super().__setattr__(key, value)

Python runtime values are embedded as a small inductive covering the types
the hyperparameters use (int, float, bool, list, str, None); bool is a
subclass of int, so isinstance(True, int) holds.  Calling a type as the
cast (_cast_dtype is the dtype itself, except np.ndarray which is not
modelled) follows the Python constructors: int() truncates floats toward
zero and maps booleans to 0/1, float() embeds ints and booleans, list()
re-iterates lists and explodes strings into their characters; unmodelled
conversions (e.g. int of a non-numeric string) are TypeError/ValueError,
returned as none. -/

/-- Python runtime types relevant to hyperparameter values. -/
inductive PyType where
  | tint
  | tfloat
  | tbool
  | tlist
  | tstr
  | tnone
  deriving Repr, DecidableEq

/-- Python runtime values relevant to hyperparameter values. -/
inductive PyVal where
  | vint (n : ℤ)
  | vfloat (q : ℚ)
  | vbool (b : Bool)
  | vlist (l : List ℤ)
  | vstr (s : String)
  | vnone
  deriving Repr, DecidableEq

/-- Exact runtime type of a value, as Python type(v). -/
def PyVal.typeOf : PyVal → PyType
  | .vint _ => .tint
  | .vfloat _ => .tfloat
  | .vbool _ => .tbool
  | .vlist _ => .tlist
  | .vstr _ => .tstr
  | .vnone => .tnone

/-- Python isinstance(v, t): exact type match, plus the bool-is-a-subclass-of-int rule. -/
def PyVal.isinstance : PyVal → PyType → Bool
  | .vbool _, .tint => true
  | v, t => v.typeOf == t

/-- Truncation toward zero, as Python int() applied to a float. -/
def pyTrunc (q : ℚ) : ℤ := if 0 ≤ q then ⌊q⌋ else -⌊-q⌋

/-- Calling the dtype as a constructor on a value (the _cast_dtype call);
none models the conversions that raise in Python. -/
def PyVal.cast : PyType → PyVal → Option PyVal
  | .tint, .vint n => some (.vint n)
  | .tint, .vbool b => some (.vint (if b then 1 else 0))
  | .tint, .vfloat q => some (.vint (pyTrunc q))
  | .tfloat, .vint n => some (.vfloat n)
  | .tfloat, .vbool b => some (.vfloat (if b then 1 else 0))
  | .tfloat, .vfloat q => some (.vfloat q)
  | .tlist, .vlist l => some (.vlist l)
  | _, _ => none

/-- Shallow embedding of hyperparameter.__setattr__ for key = 'value'
(models.py lines 1160-1162): if a dtype is set, a value that is already an
instance of it is stored unchanged, otherwise it is cast by calling the
dtype; with no dtype the value is stored as given. -/
def hyperparameter_set_value (dtype : Option PyType) (v : PyVal) : Option PyVal :=
  match dtype with
  | some t => if v.isinstance t then some v else PyVal.cast t v
  | none => some v

/-- Shallow embedding of the dtype initialization in hyperparameter.__init__
(models.py line 1153): an explicit dtype wins; otherwise the dtype is the
runtime type of the initial value, or stays unset for a None value. -/
def hyperparameter_init_dtype (dtype : Option PyType) (value : PyVal) : Option PyType :=
  match dtype with
  | some t => some t
  | none => if value = .vnone then none else some value.typeOf

/-! ## Theorems for claim C9 -/

/-- C9 counterexample: with dtype int, assigning the value True (a bool,
which is an instance of int by subclassing) stores it unchanged, so the
runtime type of value afterwards is bool, not int: the claimed
runtime-type-matches-dtype invariant fails. -/
theorem C9_counterexample_bool_kept_for_int_dtype :
    hyperparameter_set_value (some .tint) (.vbool true) = some (.vbool true)
    ∧ (PyVal.vbool true).typeOf ≠ PyType.tint := by
  decide

/-- C9 (amended): for a hyperparameter whose dtype is int, float or list,
every successful assignment leaves value an instance of dtype (with bool
counting as an instance of int); whenever the assigned value is not already
an instance of dtype, the stored value is the cast one and its runtime type
is exactly dtype.  The dtype itself, when not given explicitly, is the
runtime type of the initial (non-None) value. -/
theorem C9_value_dtype_coercion (t : PyType) (v w : PyVal)
    (ht : t = .tint ∨ t = .tfloat ∨ t = .tlist)
    (hw : hyperparameter_set_value (some t) v = some w) :
    w.isinstance t = true
    ∧ (v.isinstance t = false → w.typeOf = t)
    ∧ (v ≠ .vnone → hyperparameter_init_dtype none v = some v.typeOf) := by
  rcases ht with rfl | rfl | rfl <;> cases v <;>
    simp_all [hyperparameter_set_value, hyperparameter_init_dtype,
      PyVal.cast, PyVal.isinstance, PyVal.typeOf] <;>
    subst hw <;> simp [PyVal.isinstance, PyVal.typeOf]

/-- C9 witness: assigning the int 2 to a float-dtyped hyperparameter casts
it to the float 2.0. -/
theorem C9_value_dtype_coercion_witness :
    (PyType.tfloat = PyType.tint ∨ PyType.tfloat = PyType.tfloat ∨ PyType.tfloat = PyType.tlist)
    ∧ hyperparameter_set_value (some .tfloat) (.vint 2) = some (.vfloat 2)
    ∧ ((PyVal.vfloat 2).isinstance .tfloat = true
       ∧ ((PyVal.vint 2).isinstance .tfloat = false → (PyVal.vfloat 2).typeOf = .tfloat)
       ∧ (PyVal.vint 2 ≠ .vnone → hyperparameter_init_dtype none (.vint 2) = some (PyVal.vint 2).typeOf)) :=
  ⟨by decide, by decide,
    C9_value_dtype_coercion .tfloat (.vint 2) (.vfloat 2) (by decide) (by decide)⟩

/-! ## Section 10: ani_methods.predict_for_molecule
(interfaces/torchani_interface.py lines 644-659)

    for atom in molecule.atoms:
        if not atom.atomic_number in self.atomic_number_available:
            print(f' * Warning * Molecule contains elements other than ..., no calculations performed')
            return
    if len(molecule.atoms) == 1:
        molecule.energy = self.atomic_energies[self.method][molecule.atoms[0].atomic_number]
    else:
        self.model.predict(molecule=molecule, ...)

A molecule is its list of atomic numbers plus an optional energy
annotation.  The composite-model prediction (self.model.predict followed by
the standard-deviation bookkeeping) is abstracted as a function on the
molecule; the per-method atomic-energies table lookup is abstracted as a
total function.  The result records whether the warning was printed and is
an Except so that a raised exception would be representable. -/

/-- Molecule as seen by the ANI prediction path. -/
structure AniMol where
  atomic_numbers : List ℕ
  energy : Option ℚ
  deriving Repr, DecidableEq

/-- Shallow embedding of ani_methods.predict_for_molecule: returns the
printed-warning flag and the resulting molecule, or a raised exception
(no path of the source raises). -/
def ani_predict_for_molecule (atomic_number_available : List ℕ)
    (atomic_energy : ℕ → ℚ) (model_predict : AniMol → AniMol)
    (mol : AniMol) : Except PyErr (Bool × AniMol) :=
  if mol.atomic_numbers.any (fun z => ! atomic_number_available.contains z) then
    .ok (true, mol)
  else if mol.atomic_numbers.length = 1 then
    .ok (false, { mol with energy := some (atomic_energy (mol.atomic_numbers.getD 0 0)) })
  else
    .ok (false, model_predict mol)

/-! ## Theorems for claim C10 -/

/-- C10 counterexample: predicting on a molecule containing Li (atomic
number 3), an element outside the ANI species set {H,C,N,O} = {1,6,7,8},
does NOT raise any error: the call returns normally having only printed a
warning, and the molecule is skipped unchanged (no energy annotated).
This refutes the claim that the call fails loudly. -/
theorem C10_counterexample_unseen_element_no_raise :
    ani_predict_for_molecule [1, 6, 7, 8] (fun _ => 0) id ⟨[3, 1], none⟩
      = .ok (true, ⟨[3, 1], none⟩) := by
  rfl

/-- C10 (amended): whenever the molecule contains an element outside the
model species set, predict_for_molecule prints a warning and returns the
molecule untouched, performing no calculation and raising no error. -/
theorem C10_unseen_element_skipped (available : List ℕ) (table : ℕ → ℚ)
    (f : AniMol → AniMol) (mol : AniMol) (z : ℕ)
    (hz : z ∈ mol.atomic_numbers) (hout : z ∉ available) :
    ani_predict_for_molecule available table f mol = .ok (true, mol) := by
  have h : mol.atomic_numbers.any (fun w => ! available.contains w) = true := by
    rw [List.any_eq_true]
    exact ⟨z, hz, by simpa using hout⟩
  unfold ani_predict_for_molecule
  rw [if_pos h]

/-- C10 witness: the amended behavior at the Li-containing molecule. -/
theorem C10_unseen_element_skipped_witness :
    (3 ∈ [3, 1]) ∧ (3 ∉ [1, 6, 7, 8])
    ∧ ani_predict_for_molecule [1, 6, 7, 8] (fun _ => 0) id ⟨[3, 1], none⟩
        = .ok (true, ⟨[3, 1], none⟩) :=
  ⟨by decide, by decide,
    C10_unseen_element_skipped [1, 6, 7, 8] (fun _ => 0) id ⟨[3, 1], none⟩ 3
      (by decide) (by decide)⟩

/-! ## Section 3: methods.__init__ backend resolution (models.py lines 110-161)

The registry methods_map maps interface name to the list of method names it
implements, in the dict order of the source.  With program=None, the
constructor first checks whether the method belongs to the semi-empirical
family:

    if self.method.casefold() in [mm.casefold() for mm in self.methods_map['mndo']] \
       or self.method in [mm.casefold() for mm in self.methods_map['sparrow']]:

(note the asymmetry: the sparrow membership test compares the method name
as written against the casefolded list).  Inside that branch it prefers
mndo when the mndobin environment variable is set (truthy), then sparrow
when sparrowbin is set; otherwise it falls back to mndo with the hardcoded
default path '~/apps/mndo2020/mndo2020' whenever the method is in the mndo
list, and only failing that raises ValueError.  Outside the branch it scans
the registry in order and uses the first interface whose method list
contains the name case-insensitively, raising ValueError when none does.
Python str.casefold on these ASCII method names is ASCII lowercasing,
embedded below as pyCasefold.  The raised messages are abbreviated here;
the source texts are
"Can..t find appropriate program for the requested method, please set the
environment variable: export mndobin=... or export sparrowbin=..." and
"Can..t find appropriate interface for the requested method". -/

/-- ASCII lowercasing of one character (A-Z to a-z, everything else kept). -/
def asciiLowerChar (c : Char) : Char :=
  if 'A' ≤ c ∧ c ≤ 'Z' then Char.ofNat (c.toNat + 32) else c

/-- Python str.casefold restricted to the ASCII method names of the
registry: lowercase every character. -/
def pyCasefold (s : String) : String := ⟨s.data.map asciiLowerChar⟩

/-- The methods_map registry of models.py lines 111-121, in source order. -/
def methods_map : List (String × List String) := [
  ("aiqm1", ["AIQM1", "AIQM1@DFT", "AIQM1@DFT*"]),
  ("ani", ["ANI-1x", "ANI-1ccx", "ANI-2x", "ANI-1x-D4", "ANI-2x-D4"]),
  ("mndo", ["ODM2*", "ODM2", "ODM3", "OM3", "OM2", "OM1", "PM3", "AM1", "MNDO/d", "MNDOC",
            "MNDO", "MINDO/3", "CNDO/2", "SCC-DFTB", "SCC-DFTB-heats", "MNDO/H", "MNDO/dH"]),
  ("sparrow", ["DFTB0", "DFTB2", "DFTB3", "MNDO", "MNDO/d", "AM1", "RM1", "PM3", "PM6",
               "OM2", "OM3", "ODM2*", "ODM3*", "AIQM1"]),
  ("xtb", ["GFN2-xTB"]),
  ("dftd4", ["D4"]),
  ("ccsdtstarcbs", ["CCSD(T)*/CBS"]),
  ("gaussian", []),
  ("pyscf", [])]

/-- Casefolded mndo method list ([mm.casefold() for mm in methods_map['mndo']]). -/
def mndo_methods_cf : List String := ((methods_map.lookup "mndo").getD []).map pyCasefold

/-- Casefolded sparrow method list ([mm.casefold() for mm in methods_map['sparrow']]). -/
def sparrow_methods_cf : List String := ((methods_map.lookup "sparrow").getD []).map pyCasefold

/-- Which backend interface methods.__init__ ends up constructing. -/
inductive MethodInterface where
  | program (name : String)
  | mndo (mndobin : String)
  | sparrow
  | generic (interfaceName : String)
  | unset
  deriving Repr, DecidableEq

/-- Python truthiness of an environment variable lookup (os.getenv): set and
non-empty. -/
def envTruthy : Option String → Bool
  | some s => !(s == "")
  | none => false

/-- Shallow embedding of the backend resolution in methods.__init__
(models.py lines 123-161).  The environment is the values of mndobin and
sparrowbin.  The result is the interface constructed, unset when no branch
assigns self.interface (program given but not in the registry), or the
raised ValueError. -/
def methods_resolve (method : String) (program : Option String)
    (mndobin sparrowbin : Option String) : Except PyErr MethodInterface :=
  match program with
  | some p =>
    if (methods_map.map Prod.fst).contains p then .ok (.program p) else .ok .unset
  | none =>
    if mndo_methods_cf.contains (pyCasefold method) || sparrow_methods_cf.contains method then
      if mndo_methods_cf.contains (pyCasefold method) && envTruthy mndobin then
        .ok (.mndo (mndobin.getD ""))
      else if sparrow_methods_cf.contains (pyCasefold method) && envTruthy sparrowbin then
        .ok .sparrow
      else
        let mndobin2 := match mndobin with
          | none => "~/apps/mndo2020/mndo2020"
          | some s => s
        if mndo_methods_cf.contains (pyCasefold method) && !(mndobin2 == "") then
          .ok (.mndo mndobin2)
        else
          .error (.valueError "no appropriate program for the requested method")
    else
      match methods_map.find? (fun im => (im.2.map pyCasefold).contains (pyCasefold method)) with
      | some im => .ok (.generic im.1)
      | none => .error (.valueError "no appropriate interface for the requested method")

/-! ## Theorems for claim C3 -/

/-- C3 counterexample: the registered mndo-family method ODM2, constructed
with NO backend available in the environment (mndobin and sparrowbin both
unset), does not raise a configuration error: the constructor silently
falls back to the hardcoded default path and builds the mndo interface
without checking that any program exists there. -/
theorem C3_counterexample_odm2_no_env_no_error :
    methods_resolve "ODM2" none none none
      = .ok (.mndo "~/apps/mndo2020/mndo2020") := by
  rfl

/-- C3 (amended): the semi-empirical branch is entered when the casefolded
method name is in the mndo list or the name as written equals a lowercased
sparrow entry.  Inside it, a program whose environment location variable is
set non-empty is preferred, mndobin before sparrowbin; when the mndobin
variable is entirely unset, mndo-family methods fall back to the hardcoded
default path without any availability check; the ValueError is raised in
exactly the remaining cases: mndo-family methods whose mndobin is set to
the empty string, and non-mndo-family methods, in both cases with no
truthy sparrowbin route.  Outside the branch, the first registry interface
whose method list contains the name case-insensitively is constructed with
no environment check, and the ValueError is raised exactly when no
registry entry matches.  The seven cases below partition the whole
behavior of the resolution with program = None. -/
theorem C3_method_resolution (m s : String) (mb sb : Option String) :
    (pyCasefold m ∈ mndo_methods_cf → mb = some s → s ≠ "" →
      methods_resolve m none mb sb = .ok (.mndo s))
    ∧ ((pyCasefold m ∈ mndo_methods_cf ∨ m ∈ sparrow_methods_cf) →
       (pyCasefold m ∈ mndo_methods_cf → envTruthy mb = false) →
       pyCasefold m ∈ sparrow_methods_cf → envTruthy sb = true →
      methods_resolve m none mb sb = .ok .sparrow)
    ∧ (pyCasefold m ∈ mndo_methods_cf → mb = none →
       (pyCasefold m ∈ sparrow_methods_cf → envTruthy sb = false) →
      methods_resolve m none mb sb = .ok (.mndo "~/apps/mndo2020/mndo2020"))
    ∧ (pyCasefold m ∈ mndo_methods_cf → mb = some "" →
       (pyCasefold m ∈ sparrow_methods_cf → envTruthy sb = false) →
      methods_resolve m none mb sb
        = .error (.valueError "no appropriate program for the requested method"))
    ∧ (pyCasefold m ∉ mndo_methods_cf → m ∈ sparrow_methods_cf →
       envTruthy sb = false →
      methods_resolve m none mb sb
        = .error (.valueError "no appropriate program for the requested method"))
    ∧ (pyCasefold m ∉ mndo_methods_cf → m ∉ sparrow_methods_cf →
       ∀ im, methods_map.find? (fun e => (e.2.map pyCasefold).contains (pyCasefold m)) = some im →
      methods_resolve m none mb sb = .ok (.generic im.1))
    ∧ (pyCasefold m ∉ mndo_methods_cf → m ∉ sparrow_methods_cf →
       methods_map.find? (fun e => (e.2.map pyCasefold).contains (pyCasefold m)) = none →
      methods_resolve m none mb sb
        = .error (.valueError "no appropriate interface for the requested method")) := by
  have hd : (("~/apps/mndo2020/mndo2020" : String) == "") = false := by decide
  have he : (("" : String) == "") = true := by decide
  refine ⟨?_, ?_, ?_, ?_, ?_, ?_, ?_⟩
  · intro h1 h2 h3
    subst h2
    simp [methods_resolve, h1, envTruthy, h3]
  · intro hE hA h2 h3
    simp only [envTruthy] at h3
    by_cases hm : pyCasefold m ∈ mndo_methods_cf
    · have hmb := hA hm
      simp only [envTruthy] at hmb
      simp [methods_resolve, hm, hmb, h2, h3, envTruthy]
    · rcases hE with h | h
      · exact absurd h hm
      · simp [methods_resolve, hm, h, h2, h3, envTruthy]
  · intro h1 h2 hB
    subst h2
    by_cases hsp : pyCasefold m ∈ sparrow_methods_cf
    · have hsb := hB hsp
      simp only [envTruthy] at hsb
      simp [methods_resolve, h1, hsp, hsb, envTruthy, hd]
    · simp [methods_resolve, h1, hsp, envTruthy, hd]
  · intro h1 h2 hB
    subst h2
    by_cases hsp : pyCasefold m ∈ sparrow_methods_cf
    · have hsb := hB hsp
      simp only [envTruthy] at hsb
      simp [methods_resolve, h1, hsp, hsb, envTruthy, he]
    · simp [methods_resolve, h1, hsp, envTruthy, he]
  · intro h1 h2 h3
    simp only [envTruthy] at h3
    cases mb with
    | none => simp [methods_resolve, h1, h2, h3, envTruthy]
    | some s2 => simp [methods_resolve, h1, h2, h3, envTruthy]
  · intro h1 h2 im h3
    simp only [methods_resolve]
    rw [if_neg (by simp [h1, h2]), h3]
  · intro h1 h2 h3
    simp only [methods_resolve]
    rw [if_neg (by simp [h1, h2]), h3]

/-- C3 witness: the mndo-family method ODM2 with mndobin set to the empty
string (and no sparrowbin) raises the ValueError; the sparrow-only
lowercase-spelled dftb0 with nothing set raises it too; and the xtb-family
method GFN2-xTB resolves to the first matching registry interface with no
environment check. -/
theorem C3_method_resolution_witness :
    (pyCasefold "ODM2" ∈ mndo_methods_cf)
    ∧ methods_resolve "ODM2" none (some "") none
        = .error (.valueError "no appropriate program for the requested method")
    ∧ methods_resolve "dftb0" none none none
        = .error (.valueError "no appropriate program for the requested method")
    ∧ methods_resolve "GFN2-xTB" none none none = .ok (.generic "xtb") :=
  ⟨by decide,
    (C3_method_resolution "ODM2" "" (some "") none).2.2.2.1 (by decide) rfl
      (fun _ => rfl),
    (C3_method_resolution "dftb0" "" none none).2.2.2.2.1 (by decide) (by decide) rfl,
    (C3_method_resolution "GFN2-xTB" "" none none).2.2.2.2.2.1 (by decide) (by decide)
      ("xtb", ["GFN2-xTB"]) (by decide)⟩


/-! ## Section 5: default validation loss (models.py lines 344-352)

    def geomRMSEloc(estimated_y,y,estimated_xyz_derivatives,xyz_derivatives):
        total_rmse = 1
        if property_to_learn != None:
            total_rmse *= stats.rmse(estimated_y,y)
        if xyz_derivative_property_to_learn != None:
            total_rmse *= stats.rmse(estimated_xyz_derivatives.reshape(...), xyz_derivatives.reshape(...))
        if property_to_learn != None and xyz_derivative_property_to_learn != None:
            total_rmse = np.sqrt(total_rmse)
        return total_rmse

Scalar property values are one number per molecule; xyz-derivative values
are one vector per molecule, flattened by the reshape before the error is
taken.  Values are embedded as reals since the loss takes a square root. -/

/-- Modelled from the spec: stats.rmse (pyar/mlatom/stats.py is not among
the sources); the spec calls the default loss the root-mean-square error of
predicted vs reference values. -/
noncomputable def stats_rmse (est ref : List ℝ) : ℝ :=
  Real.sqrt ((((est.zip ref).map (fun p => (p.1 - p.2)^2)).sum) / est.length)

/-- Shallow embedding of the local loss function geomRMSEloc in
ml_model.calculate_validation_loss (models.py lines 344-352).  The two
Option arguments are the property_to_learn and
xyz_derivative_property_to_learn labels captured from the enclosing scope. -/
noncomputable def geomRMSEloc (property_to_learn xyz_derivative_property_to_learn : Option String)
    (estimated_y y : List ℝ) (estimated_xyz_derivatives xyz_derivatives : List (List ℝ)) : ℝ :=
  let total0 : ℝ := 1
  let total1 := if property_to_learn ≠ none then total0 * stats_rmse estimated_y y else total0
  let total2 := if xyz_derivative_property_to_learn ≠ none then
      total1 * stats_rmse estimated_xyz_derivatives.flatten xyz_derivatives.flatten
    else total1
  if property_to_learn ≠ none ∧ xyz_derivative_property_to_learn ≠ none then
    Real.sqrt total2
  else total2

/-- The loss as the specification words it: RMSE of the scalar property if
only it is learned, RMSE of the flattened derivatives if only they are
learned, and the square root of the product of the two RMSEs when both are
learned (1 when nothing is learned). -/
noncomputable def validation_loss_spec (property_to_learn xyz_derivative_property_to_learn : Option String)
    (estimated_y y : List ℝ) (estimated_xyz_derivatives xyz_derivatives : List (List ℝ)) : ℝ :=
  match property_to_learn, xyz_derivative_property_to_learn with
  | some _, some _ =>
      Real.sqrt (stats_rmse estimated_y y
        * stats_rmse estimated_xyz_derivatives.flatten xyz_derivatives.flatten)
  | some _, none => stats_rmse estimated_y y
  | none, some _ => stats_rmse estimated_xyz_derivatives.flatten xyz_derivatives.flatten
  | none, none => 1

/-! ## Theorem for claim C5 -/

/-- C5: the default validation loss of calculate_validation_loss agrees
with the specification in all cases: the RMSE of the scalar property when
only a scalar property is learned, the RMSE of the flattened derivatives
when only xyz-derivative labels are learned, and the square root of the
product of the two RMSEs when both are learned. -/
theorem C5_default_validation_loss (p d : Option String)
    (estimated_y y : List ℝ) (estimated_xyz_derivatives xyz_derivatives : List (List ℝ)) :
    geomRMSEloc p d estimated_y y estimated_xyz_derivatives xyz_derivatives
      = validation_loss_spec p d estimated_y y estimated_xyz_derivatives xyz_derivatives := by
  cases p <;> cases d <;>
    simp [geomRMSEloc, validation_loss_spec]

/-! ## Section 4: optimize_grid (models.py lines 519-551)

    def optimize_grid(func, grid):
        last = True
        for ii in grid[:-1]:
            if len(ii) != 1: last = False; break
        if last:
            other_params = [jj[0] for jj in grid[:-1]]
            opt_param = grid[-1][0]
            min_val = func(other_params + [opt_param])
            for param in grid[-1][1:]:
                val = func(other_params + [param])
                if val < min_val: opt_param = param; min_val = val
            return other_params + [opt_param], min_val
        else:
            min_val = None
            for kk in range(len(grid))[:-1]:
                if len(grid[kk]) != 1:
                    other_params_left = [[grid[ii][0]] for ii in range(kk)]
                    other_params_right = grid[kk+1:]
                    for param in grid[kk]:
                        params, val = optimize_grid(func, other_params_left + [[param]] + other_params_right)
                        if min_val == None: min_val = val; opt_params = params
                        elif val < min_val: opt_params = params; min_val = val
                    break
            return opt_params, min_val

kk is the first index (among all but the last) whose axis is not a
singleton; since the else branch runs only when such an index exists, and
all axes before it are singletons (so [[grid[ii][0]]] is grid[ii] itself),
the recursion replaces the first non-singleton axis by each of its values
in turn and keeps the full remaining axes on the right.  The embedding
additionally records the trace of points at which func is evaluated, in
evaluation order; optimize_grid itself is the result pair.  The recursion
is run on explicit fuel (each recursive call turns one non-singleton axis
into a singleton, so grid.length + 1 levels always suffice); the
unreachable defaults correspond to inputs on which the Python code would
crash with an IndexError or an unbound local. -/

/-- Whether every axis before the last is a singleton (the computation of
the flag named last in the source). -/
def allSingletonInit (grid : List (List ℚ)) : Bool :=
  grid.dropLast.all (fun l => l.length == 1)

/-- Splits the grid at the first non-singleton axis: returns the (all
singleton) prefix and the remainder starting at that axis. -/
def splitAtMulti : List (List ℚ) → List (List ℚ) × List (List ℚ)
  | [] => ([], [])
  | l :: rest =>
    if l.length == 1 then
      let pr := splitAtMulti rest
      (l :: pr.1, pr.2)
    else ([], l :: rest)

/-- The scan of the last axis in the last-branch of optimize_grid: func is
evaluated with the other parameters held at their single values, keeping
the strictly smallest value (first occurrence wins ties).  Returns the
(params, min) pair and the evaluated points in order. -/
def scanLastAxis (func : List ℚ → ℚ) (other : List ℚ) (p0 : ℚ) (rest : List ℚ) :
    (List ℚ × ℚ) × List (List ℚ) :=
  let r := rest.foldl
    (fun (acc : (ℚ × ℚ) × List (List ℚ)) param =>
      let val := func (other ++ [param])
      ((if val < acc.1.2 then (param, val) else acc.1), acc.2 ++ [other ++ [param]]))
    ((p0, func (other ++ [p0])), [other ++ [p0]])
  ((other ++ [r.1.1], r.1.2), r.2)

/-- Shallow embedding of optimize_grid with an evaluation trace, on fuel. -/
def optimize_grid_t (func : List ℚ → ℚ) : ℕ → List (List ℚ) → (List ℚ × ℚ) × List (List ℚ)
  | 0, _ => (([], 0), [])
  | fuel + 1, grid =>
    if allSingletonInit grid then
      match grid.getLast? with
      | none => (([], 0), [])
      | some lastAxis =>
        match lastAxis with
        | [] => (([], 0), [])
        | p0 :: rest =>
          scanLastAxis func (grid.dropLast.map (fun jj => jj.headD 0)) p0 rest
    else
      match (splitAtMulti grid).2 with
      | [] => (([], 0), [])
      | ax :: post =>
        match ax with
        | [] => (([], 0), [])
        | q :: qs =>
          let pre := (splitAtMulti grid).1
          let first := optimize_grid_t func fuel (pre ++ [[q]] ++ post)
          qs.foldl
            (fun acc q2 =>
              let r := optimize_grid_t func fuel (pre ++ [[q2]] ++ post)
              ((if r.1.2 < acc.1.2 then r.1 else acc.1), acc.2 ++ r.2))
            first

/-- optimize_grid itself: the (params, min) result of the traced run. -/
def optimize_grid (func : List ℚ → ℚ) (grid : List (List ℚ)) : List ℚ × ℚ :=
  (optimize_grid_t func (grid.length + 1) grid).1

/-- The points optimize_grid evaluates func at, in evaluation order. -/
def optimize_grid_evaluations (func : List ℚ → ℚ) (grid : List (List ℚ)) : List (List ℚ) :=
  (optimize_grid_t func (grid.length + 1) grid).2

/-- The full Cartesian product of the grid axes, in lexicographic order
(the point set of a true exhaustive grid search, written from the spec for
comparison). -/
def gridCartesianProduct : List (List ℚ) → List (List ℚ)
  | [] => [[]]
  | ax :: rest => ax.flatMap (fun v => (gridCartesianProduct rest).map (fun p => v :: p))

/-- A convex quadratic loss in two variables with minimum at (1, 1). -/
def quadratic_loss : List ℚ → ℚ :=
  fun l => (l.headD 0 - 1) * (l.headD 0 - 1) + (l.getD 1 0 - 1) * (l.getD 1 0 - 1)

/-- Two hyperparameters, each discretized to the 3 candidate values 0,1,2. -/
def grid33 : List (List ℚ) := [[0, 1, 2], [0, 1, 2]]

/-! ## Theorems for claim C4 -/

/-- C4 counterexample: on a 2-hyperparameter grid with 3 candidates per
axis, optimize_grid evaluates the loss at all 9 points of the full
Cartesian product (in lexicographic order), refuting the claim that the
sweep does not evaluate the full Cartesian product of the grid. -/
theorem C4_counterexample_evaluates_full_product :
    optimize_grid_evaluations quadratic_loss grid33 = gridCartesianProduct grid33
    ∧ (optimize_grid_evaluations quadratic_loss grid33).length = 9 := by
  constructor
  · rfl
  · rfl

/-- C4 (amended): the grid/brute search recursion scans the first
non-singleton axis and recurses with the remaining axes kept whole, so it
evaluates the full Cartesian product; on 2 hyperparameters with 3
candidates each and a convex quadratic loss it returns the optimum of the
exhaustive 9-point search: the grid point [1, 1] with loss 0, the minimum
of the loss over the 9 product points. -/
theorem C4_grid_search_optimum :
    optimize_grid quadratic_loss grid33 = ([1, 1], 0)
    ∧ ((gridCartesianProduct grid33).map quadratic_loss).min? = some 0
    ∧ [1, 1] ∈ gridCartesianProduct grid33
    ∧ quadratic_loss [1, 1] = 0 := by
  refine ⟨?_, ?_, ?_, ?_⟩
  · norm_num [optimize_grid, optimize_grid_t, grid33, quadratic_loss, splitAtMulti,
      scanLastAxis, allSingletonInit, List.foldl]
  · norm_num [gridCartesianProduct, grid33, quadratic_loss, List.min?, List.foldl]
  · norm_num [gridCartesianProduct, grid33]
  · norm_num [quadratic_loss]

/-! ## Section 2: model_tree_node.predict (models.py lines 982-1092)

The composite prediction, per molecule:

  1. if the molecule has no attribute named after this node, attach a fresh
     per-node property container (data.properties_tree_node);
  2. a leaf (children is None, operator 'predict') runs the wrapped model,
     which writes the requested properties into the molecule, and copies
     them into the node's container (get_properties_from_molecule);
  3. an inner node first lets every child whose container is absent predict,
     then combines the children's containers with .sum / .average on the
     requested property names (properties + atomic_properties);
  4. the root node (parent is None) copies its combined container values
     back onto the molecule's top-level property names
     (update_molecular_properties).

Molecule state is embedded as two association maps: top, the molecule's
own property bag (per-atom vectorial properties are kept flattened next to
the scalars, since the atom objects only ever store and return them
per-property), and nodes, the containers keyed by node name.  Property
values are flattened lists of rationals (a scalar is a one-element list).
The tree is the node structure: a leaf carries the fixed output container
its wrapped deterministic model writes (the model.predict call), an inner
node carries its operator and children; the parent back-references of the
source are realized by the recursion (only the root call propagates to the
molecule).  data.properties_tree_node with its sum/average combination
lives in pyar/mlatom/data.py, which is not among the sources; its
combination operators are modelled from the spec below. -/

/-- A property value: flattened list of numbers (scalar = one element). -/
abbrev PropVal := List ℚ

/-- A property container: ordered association list name-to-value. -/
abbrev PropContainer := List (String × PropVal)

/-- Molecule state: top-level property bag plus per-node containers. -/
structure TreeMol where
  top : PropContainer
  nodes : List (String × PropContainer)
  deriving Repr, DecidableEq

/-- Lookup in an association list (first match). -/
def alookup (c : List (String × α)) (k : String) : Option α :=
  (c.find? (fun kv => kv.1 == k)).map Prod.snd

/-- Update-or-append in an association list (Python dict/attribute set). -/
def aset (c : List (String × α)) (k : String) (v : α) : List (String × α) :=
  if (c.find? (fun kv => kv.1 == k)).isSome then
    c.map (fun kv => if kv.1 == k then (k, v) else kv)
  else c ++ [(k, v)]

/-! A model tree: a leaf wraps a deterministic model whose predict writes
the given properties onto the molecule; an inner node combines children
with its operator (sum / average).  The list of children is represented by
the mutually inductive MTForest so that the prediction recursion below is
structural. -/

mutual

/-- A model tree node (model_tree_node). -/
inductive MTNode where
  | leaf (name : String) (out : PropContainer)
  | comb (name : String) (op : String) (children : MTForest)

/-- An ordered list of model tree nodes (the children attribute). -/
inductive MTForest where
  | nil
  | cons (head : MTNode) (tail : MTForest)

end

/-- The name of a node. -/
def MTNode.name : MTNode → String
  | .leaf n _ => n
  | .comb n _ _ => n

/-- Number of children (len(self.children)). -/
def MTForest.length : MTForest → ℕ
  | .nil => 0
  | .cons _ t => t.length + 1

/-- The names of the children, in order. -/
def MTForest.names : MTForest → List String
  | .nil => []
  | .cons c t => c.name :: t.names

/-- The molecule-level and atomic requested property name lists built from
the calculate_* flags (models.py lines 1017-1020). -/
def requestedProperties (calculate_energy calculate_energy_gradients calculate_hessian : Bool) :
    List String × List String :=
  ((if calculate_energy then ["energy"] else []) ++ (if calculate_hessian then ["hessian"] else []),
   if calculate_energy_gradients then ["energy_gradients"] else [])

/-- Step 1 of predict: attach an empty container under the node name if the
molecule does not have one yet (models.py lines 1022-1034). -/
def ensureContainer (name : String) (m : TreeMol) : TreeMol :=
  if (alookup m.nodes name).isSome then m
  else { m with nodes := aset m.nodes name [] }

/-- The wrapped model's predict call of a leaf: writes its computed
properties into the molecule's bag in order. -/
def writeModelOutput (out : PropContainer) (m : TreeMol) : TreeMol :=
  { m with top := out.foldl (fun t kv => aset t kv.1 kv.2) m.top }

/-- model_tree_node.get_properties_from_molecule (models.py lines
1054-1062): copy each requested molecule-level property present on the
molecule, and each requested atomic property (gathered from the atoms,
here read from the flattened bag), into the node's container. -/
def get_properties_from_molecule (name : String) (props atomicProps : List String)
    (m : TreeMol) : TreeMol :=
  let c := (alookup m.nodes name).getD []
  let c1 := props.foldl (fun c p =>
    match alookup m.top p with
    | some v => aset c p v
    | none => c) c
  let c2 := atomicProps.foldl (fun c p => aset c p ((alookup m.top p).getD [])) c1
  { m with nodes := aset m.nodes name c2 }

/-- Modelled from the spec: elementwise sum of a nonempty family of
property values (data.properties_tree_node.sum adds every requested
property across children elementwise; data.py is not among the sources). -/
def sumVals : List PropVal → Option PropVal
  | [] => none
  | v :: rest => some (rest.foldl (fun a b => a.zipWith (· + ·) b) v)

/-- Modelled from the spec: data.properties_tree_node.sum / .average on the
node's container (data.py is not among the sources): for each requested
property name, the node's value becomes the elementwise sum of the
children's values of that property; average divides by the child count. -/
def containerCombine (isAverage : Bool) (nchildren : ℕ) (childCs : List PropContainer)
    (ps : List String) (c : PropContainer) : PropContainer :=
  ps.foldl (fun c p =>
    match sumVals (childCs.filterMap (fun cc => alookup cc p)) with
    | none => c
    | some s => aset c p (if isAverage then s.map (fun x => x / (nchildren : ℚ)) else s)) c

/-- model_tree_node.update_molecular_properties (models.py lines
1064-1075): copy the node's container values for the requested property
names back onto the molecule's top-level properties (the atomic ones going
to the atoms, here the flattened bag). -/
def update_molecular_properties (name : String) (props atomicProps : List String)
    (m : TreeMol) : TreeMol :=
  let c := (alookup m.nodes name).getD []
  let t1 := props.foldl (fun t p =>
    match alookup c p with
    | some v => aset t p v
    | none => t) m.top
  let t2 := atomicProps.foldl (fun t p =>
    match alookup c p with
    | some v => aset t p v
    | none => t) t1
  { m with top := t2 }

mutual

/-- Shallow embedding of model_tree_node.predict (models.py lines
1003-1052) for a non-root node: ensure the container, then run the leaf
model and copy its outputs, or let the absent children predict and combine
their containers with the operator. -/
def predictNode (props atomicProps : List String) : MTNode → TreeMol → TreeMol
  | .leaf name out, m =>
    let m1 := ensureContainer name m
    let m2 := writeModelOutput out m1
    get_properties_from_molecule name props atomicProps m2
  | .comb name op children, m =>
    let m1 := ensureContainer name m
    let m2 := predictForest props atomicProps children m1
    if op == "sum" then
      let cc := containerCombine false children.length
        (children.names.map (fun cn => (alookup m2.nodes cn).getD []))
        (props ++ atomicProps) ((alookup m2.nodes name).getD [])
      { m2 with nodes := aset m2.nodes name cc }
    else if op == "average" then
      let cc := containerCombine true children.length
        (children.names.map (fun cn => (alookup m2.nodes cn).getD []))
        (props ++ atomicProps) ((alookup m2.nodes name).getD [])
      { m2 with nodes := aset m2.nodes name cc }
    else m2

/-- The loop over children (models.py lines 1041-1042): a child predicts
only when the molecule has no container under its name yet. -/
def predictForest (props atomicProps : List String) : MTForest → TreeMol → TreeMol
  | .nil, m => m
  | .cons c rest, m =>
    let m1 := if (alookup m.nodes c.name).isSome then m
      else predictNode props atomicProps c m
    predictForest props atomicProps rest m1

end

/-- Predict at the root (parent is None): after the node's predict, the
combined container is propagated onto the molecule (models.py lines
1051-1052). -/
def predictRoot (props atomicProps : List String) (t : MTNode) (m : TreeMol) : TreeMol :=
  update_molecular_properties t.name props atomicProps (predictNode props atomicProps t m)

lemma predictForest_cons_absent (props atomicProps : List String) (c : MTNode)
    (rest : MTForest) (m : TreeMol) (h : (alookup m.nodes c.name).isSome = false) :
    predictForest props atomicProps (.cons c rest) m
      = predictForest props atomicProps rest (predictNode props atomicProps c m) := by
  simp [predictForest, h]

lemma predictForest_cons_present (props atomicProps : List String) (c : MTNode)
    (rest : MTForest) (m : TreeMol) (h : (alookup m.nodes c.name).isSome = true) :
    predictForest props atomicProps (.cons c rest) m
      = predictForest props atomicProps rest m := by
  simp [predictForest, h]

/-- C2: for a root model_tree_node with three leaf children that have each
produced their per-node property containers on a fresh molecule (energies
e1,e2,e3, per-coordinate gradients [a,b], hessians [q]), with operator sum
the root container holds the elementwise sums of energy, hessian and
energy_gradients across the children; with operator average it holds the
elementwise sums divided by the child count 3; the root node (parent None)
copies those combined values onto the molecule top-level property names;
and re-running predict on the already-annotated molecule leaves the state
unchanged (no double accumulation: predict is idempotent). -/
theorem C2_model_tree_sum_average (e1 e2 e3 a1 b1 a2 b2 a3 b3 q1 q2 q3 : ℚ) :
    (alookup (predictRoot ["energy", "hessian"] ["energy_gradients"] (.comb "ens" "sum" (MTForest.cons (MTNode.leaf "nn0" [("energy", [e1]), ("energy_gradients", [a1, b1]), ("hessian", [q1])]) (.cons (MTNode.leaf "nn1" [("energy", [e2]), ("energy_gradients", [a2, b2]), ("hessian", [q2])]) (.cons (MTNode.leaf "nn2" [("energy", [e3]), ("energy_gradients", [a3, b3]), ("hessian", [q3])]) .nil)))) ⟨[], []⟩).nodes "ens"
      = some [("energy", [e1 + e2 + e3]), ("hessian", [q1 + q2 + q3]), ("energy_gradients", [a1 + a2 + a3, b1 + b2 + b3])])
    ∧ (alookup (predictRoot ["energy", "hessian"] ["energy_gradients"] (.comb "ens" "sum" (MTForest.cons (MTNode.leaf "nn0" [("energy", [e1]), ("energy_gradients", [a1, b1]), ("hessian", [q1])]) (.cons (MTNode.leaf "nn1" [("energy", [e2]), ("energy_gradients", [a2, b2]), ("hessian", [q2])]) (.cons (MTNode.leaf "nn2" [("energy", [e3]), ("energy_gradients", [a3, b3]), ("hessian", [q3])]) .nil)))) ⟨[], []⟩).top "energy"
      = some [e1 + e2 + e3])
    ∧ (alookup (predictRoot ["energy", "hessian"] ["energy_gradients"] (.comb "ens" "sum" (MTForest.cons (MTNode.leaf "nn0" [("energy", [e1]), ("energy_gradients", [a1, b1]), ("hessian", [q1])]) (.cons (MTNode.leaf "nn1" [("energy", [e2]), ("energy_gradients", [a2, b2]), ("hessian", [q2])]) (.cons (MTNode.leaf "nn2" [("energy", [e3]), ("energy_gradients", [a3, b3]), ("hessian", [q3])]) .nil)))) ⟨[], []⟩).top "energy_gradients"
      = some [a1 + a2 + a3, b1 + b2 + b3])
    ∧ (alookup (predictRoot ["energy", "hessian"] ["energy_gradients"] (.comb "ens" "sum" (MTForest.cons (MTNode.leaf "nn0" [("energy", [e1]), ("energy_gradients", [a1, b1]), ("hessian", [q1])]) (.cons (MTNode.leaf "nn1" [("energy", [e2]), ("energy_gradients", [a2, b2]), ("hessian", [q2])]) (.cons (MTNode.leaf "nn2" [("energy", [e3]), ("energy_gradients", [a3, b3]), ("hessian", [q3])]) .nil)))) ⟨[], []⟩).top "hessian"
      = some [q1 + q2 + q3])
    ∧ (alookup (predictRoot ["energy", "hessian"] ["energy_gradients"] (.comb "ens" "average" (MTForest.cons (MTNode.leaf "nn0" [("energy", [e1]), ("energy_gradients", [a1, b1]), ("hessian", [q1])]) (.cons (MTNode.leaf "nn1" [("energy", [e2]), ("energy_gradients", [a2, b2]), ("hessian", [q2])]) (.cons (MTNode.leaf "nn2" [("energy", [e3]), ("energy_gradients", [a3, b3]), ("hessian", [q3])]) .nil)))) ⟨[], []⟩).nodes "ens"
      = some [("energy", [(e1 + e2 + e3) / 3]), ("hessian", [(q1 + q2 + q3) / 3]), ("energy_gradients", [(a1 + a2 + a3) / 3, (b1 + b2 + b3) / 3])])
    ∧ (alookup (predictRoot ["energy", "hessian"] ["energy_gradients"] (.comb "ens" "average" (MTForest.cons (MTNode.leaf "nn0" [("energy", [e1]), ("energy_gradients", [a1, b1]), ("hessian", [q1])]) (.cons (MTNode.leaf "nn1" [("energy", [e2]), ("energy_gradients", [a2, b2]), ("hessian", [q2])]) (.cons (MTNode.leaf "nn2" [("energy", [e3]), ("energy_gradients", [a3, b3]), ("hessian", [q3])]) .nil)))) ⟨[], []⟩).top "energy"
      = some [(e1 + e2 + e3) / 3])
    ∧ (alookup (predictRoot ["energy", "hessian"] ["energy_gradients"] (.comb "ens" "average" (MTForest.cons (MTNode.leaf "nn0" [("energy", [e1]), ("energy_gradients", [a1, b1]), ("hessian", [q1])]) (.cons (MTNode.leaf "nn1" [("energy", [e2]), ("energy_gradients", [a2, b2]), ("hessian", [q2])]) (.cons (MTNode.leaf "nn2" [("energy", [e3]), ("energy_gradients", [a3, b3]), ("hessian", [q3])]) .nil)))) ⟨[], []⟩).top "energy_gradients"
      = some [(a1 + a2 + a3) / 3, (b1 + b2 + b3) / 3])
    ∧ (predictRoot ["energy", "hessian"] ["energy_gradients"] (.comb "ens" "sum" (MTForest.cons (MTNode.leaf "nn0" [("energy", [e1]), ("energy_gradients", [a1, b1]), ("hessian", [q1])]) (.cons (MTNode.leaf "nn1" [("energy", [e2]), ("energy_gradients", [a2, b2]), ("hessian", [q2])]) (.cons (MTNode.leaf "nn2" [("energy", [e3]), ("energy_gradients", [a3, b3]), ("hessian", [q3])]) .nil))))
        (predictRoot ["energy", "hessian"] ["energy_gradients"] (.comb "ens" "sum" (MTForest.cons (MTNode.leaf "nn0" [("energy", [e1]), ("energy_gradients", [a1, b1]), ("hessian", [q1])]) (.cons (MTNode.leaf "nn1" [("energy", [e2]), ("energy_gradients", [a2, b2]), ("hessian", [q2])]) (.cons (MTNode.leaf "nn2" [("energy", [e3]), ("energy_gradients", [a3, b3]), ("hessian", [q3])]) .nil)))) ⟨[], []⟩)
      = predictRoot ["energy", "hessian"] ["energy_gradients"] (.comb "ens" "sum" (MTForest.cons (MTNode.leaf "nn0" [("energy", [e1]), ("energy_gradients", [a1, b1]), ("hessian", [q1])]) (.cons (MTNode.leaf "nn1" [("energy", [e2]), ("energy_gradients", [a2, b2]), ("hessian", [q2])]) (.cons (MTNode.leaf "nn2" [("energy", [e3]), ("energy_gradients", [a3, b3]), ("hessian", [q3])]) .nil)))) ⟨[], []⟩)
    ∧ (predictRoot ["energy", "hessian"] ["energy_gradients"] (.comb "ens" "average" (MTForest.cons (MTNode.leaf "nn0" [("energy", [e1]), ("energy_gradients", [a1, b1]), ("hessian", [q1])]) (.cons (MTNode.leaf "nn1" [("energy", [e2]), ("energy_gradients", [a2, b2]), ("hessian", [q2])]) (.cons (MTNode.leaf "nn2" [("energy", [e3]), ("energy_gradients", [a3, b3]), ("hessian", [q3])]) .nil))))
        (predictRoot ["energy", "hessian"] ["energy_gradients"] (.comb "ens" "average" (MTForest.cons (MTNode.leaf "nn0" [("energy", [e1]), ("energy_gradients", [a1, b1]), ("hessian", [q1])]) (.cons (MTNode.leaf "nn1" [("energy", [e2]), ("energy_gradients", [a2, b2]), ("hessian", [q2])]) (.cons (MTNode.leaf "nn2" [("energy", [e3]), ("energy_gradients", [a3, b3]), ("hessian", [q3])]) .nil)))) ⟨[], []⟩)
      = predictRoot ["energy", "hessian"] ["energy_gradients"] (.comb "ens" "average" (MTForest.cons (MTNode.leaf "nn0" [("energy", [e1]), ("energy_gradients", [a1, b1]), ("hessian", [q1])]) (.cons (MTNode.leaf "nn1" [("energy", [e2]), ("energy_gradients", [a2, b2]), ("hessian", [q2])]) (.cons (MTNode.leaf "nn2" [("energy", [e3]), ("energy_gradients", [a3, b3]), ("hessian", [q3])]) .nil)))) ⟨[], []⟩) := by
  have hc0 : predictNode ["energy", "hessian"] ["energy_gradients"] (MTNode.leaf "nn0" [("energy", [e1]), ("energy_gradients", [a1, b1]), ("hessian", [q1])]) ⟨[], [("ens", [])]⟩ = ⟨[("energy", [e1]), ("energy_gradients", [a1, b1]), ("hessian", [q1])], [("ens", []), ("nn0", [("energy", [e1]), ("hessian", [q1]), ("energy_gradients", [a1, b1])])]⟩ := by rfl
  have hc1 : predictNode ["energy", "hessian"] ["energy_gradients"] (MTNode.leaf "nn1" [("energy", [e2]), ("energy_gradients", [a2, b2]), ("hessian", [q2])]) ⟨[("energy", [e1]), ("energy_gradients", [a1, b1]), ("hessian", [q1])], [("ens", []), ("nn0", [("energy", [e1]), ("hessian", [q1]), ("energy_gradients", [a1, b1])])]⟩ = ⟨[("energy", [e2]), ("energy_gradients", [a2, b2]), ("hessian", [q2])], [("ens", []), ("nn0", [("energy", [e1]), ("hessian", [q1]), ("energy_gradients", [a1, b1])]), ("nn1", [("energy", [e2]), ("hessian", [q2]), ("energy_gradients", [a2, b2])])]⟩ := by rfl
  have hc2 : predictNode ["energy", "hessian"] ["energy_gradients"] (MTNode.leaf "nn2" [("energy", [e3]), ("energy_gradients", [a3, b3]), ("hessian", [q3])]) ⟨[("energy", [e2]), ("energy_gradients", [a2, b2]), ("hessian", [q2])], [("ens", []), ("nn0", [("energy", [e1]), ("hessian", [q1]), ("energy_gradients", [a1, b1])]), ("nn1", [("energy", [e2]), ("hessian", [q2]), ("energy_gradients", [a2, b2])])]⟩ = ⟨[("energy", [e3]), ("energy_gradients", [a3, b3]), ("hessian", [q3])], [("ens", []), ("nn0", [("energy", [e1]), ("hessian", [q1]), ("energy_gradients", [a1, b1])]), ("nn1", [("energy", [e2]), ("hessian", [q2]), ("energy_gradients", [a2, b2])]), ("nn2", [("energy", [e3]), ("hessian", [q3]), ("energy_gradients", [a3, b3])])]⟩ := by rfl
  have hf : predictForest ["energy", "hessian"] ["energy_gradients"] (MTForest.cons (MTNode.leaf "nn0" [("energy", [e1]), ("energy_gradients", [a1, b1]), ("hessian", [q1])]) (.cons (MTNode.leaf "nn1" [("energy", [e2]), ("energy_gradients", [a2, b2]), ("hessian", [q2])]) (.cons (MTNode.leaf "nn2" [("energy", [e3]), ("energy_gradients", [a3, b3]), ("hessian", [q3])]) .nil))) ⟨[], [("ens", [])]⟩ = ⟨[("energy", [e3]), ("energy_gradients", [a3, b3]), ("hessian", [q3])], [("ens", []), ("nn0", [("energy", [e1]), ("hessian", [q1]), ("energy_gradients", [a1, b1])]), ("nn1", [("energy", [e2]), ("hessian", [q2]), ("energy_gradients", [a2, b2])]), ("nn2", [("energy", [e3]), ("hessian", [q3]), ("energy_gradients", [a3, b3])])]⟩ := by
    rw [predictForest_cons_absent _ _ _ _ _ (by rfl), hc0,
        predictForest_cons_absent _ _ _ _ _ (by rfl), hc1,
        predictForest_cons_absent _ _ _ _ _ (by rfl), hc2]
    rfl
  have hE : ensureContainer "ens" ⟨[], []⟩ = (⟨[], [("ens", [])]⟩ : TreeMol) := by rfl
  have hnodeS : predictNode ["energy", "hessian"] ["energy_gradients"] (.comb "ens" "sum" (MTForest.cons (MTNode.leaf "nn0" [("energy", [e1]), ("energy_gradients", [a1, b1]), ("hessian", [q1])]) (.cons (MTNode.leaf "nn1" [("energy", [e2]), ("energy_gradients", [a2, b2]), ("hessian", [q2])]) (.cons (MTNode.leaf "nn2" [("energy", [e3]), ("energy_gradients", [a3, b3]), ("hessian", [q3])]) .nil)))) ⟨[], []⟩ = ⟨[("energy", [e3]), ("energy_gradients", [a3, b3]), ("hessian", [q3])], [("ens", [("energy", [e1 + e2 + e3]), ("hessian", [q1 + q2 + q3]), ("energy_gradients", [a1 + a2 + a3, b1 + b2 + b3])]), ("nn0", [("energy", [e1]), ("hessian", [q1]), ("energy_gradients", [a1, b1])]), ("nn1", [("energy", [e2]), ("hessian", [q2]), ("energy_gradients", [a2, b2])]), ("nn2", [("energy", [e3]), ("hessian", [q3]), ("energy_gradients", [a3, b3])])]⟩ := by
    simp only [predictNode]
    rw [hE, hf]
    rfl
  have hnodeA : predictNode ["energy", "hessian"] ["energy_gradients"] (.comb "ens" "average" (MTForest.cons (MTNode.leaf "nn0" [("energy", [e1]), ("energy_gradients", [a1, b1]), ("hessian", [q1])]) (.cons (MTNode.leaf "nn1" [("energy", [e2]), ("energy_gradients", [a2, b2]), ("hessian", [q2])]) (.cons (MTNode.leaf "nn2" [("energy", [e3]), ("energy_gradients", [a3, b3]), ("hessian", [q3])]) .nil)))) ⟨[], []⟩ = ⟨[("energy", [e3]), ("energy_gradients", [a3, b3]), ("hessian", [q3])], [("ens", [("energy", [(e1 + e2 + e3) / 3]), ("hessian", [(q1 + q2 + q3) / 3]), ("energy_gradients", [(a1 + a2 + a3) / 3, (b1 + b2 + b3) / 3])]), ("nn0", [("energy", [e1]), ("hessian", [q1]), ("energy_gradients", [a1, b1])]), ("nn1", [("energy", [e2]), ("hessian", [q2]), ("energy_gradients", [a2, b2])]), ("nn2", [("energy", [e3]), ("hessian", [q3]), ("energy_gradients", [a3, b3])])]⟩ := by
    simp only [predictNode]
    rw [hE, hf]
    rfl
  have hrootS : predictRoot ["energy", "hessian"] ["energy_gradients"] (.comb "ens" "sum" (MTForest.cons (MTNode.leaf "nn0" [("energy", [e1]), ("energy_gradients", [a1, b1]), ("hessian", [q1])]) (.cons (MTNode.leaf "nn1" [("energy", [e2]), ("energy_gradients", [a2, b2]), ("hessian", [q2])]) (.cons (MTNode.leaf "nn2" [("energy", [e3]), ("energy_gradients", [a3, b3]), ("hessian", [q3])]) .nil)))) ⟨[], []⟩ = ⟨[("energy", [e1 + e2 + e3]), ("energy_gradients", [a1 + a2 + a3, b1 + b2 + b3]), ("hessian", [q1 + q2 + q3])],
       [("ens", [("energy", [e1 + e2 + e3]), ("hessian", [q1 + q2 + q3]), ("energy_gradients", [a1 + a2 + a3, b1 + b2 + b3])]), ("nn0", [("energy", [e1]), ("hessian", [q1]), ("energy_gradients", [a1, b1])]), ("nn1", [("energy", [e2]), ("hessian", [q2]), ("energy_gradients", [a2, b2])]), ("nn2", [("energy", [e3]), ("hessian", [q3]), ("energy_gradients", [a3, b3])])]⟩ := by
    simp only [predictRoot]
    rw [hnodeS]
    rfl
  have hrootA : predictRoot ["energy", "hessian"] ["energy_gradients"] (.comb "ens" "average" (MTForest.cons (MTNode.leaf "nn0" [("energy", [e1]), ("energy_gradients", [a1, b1]), ("hessian", [q1])]) (.cons (MTNode.leaf "nn1" [("energy", [e2]), ("energy_gradients", [a2, b2]), ("hessian", [q2])]) (.cons (MTNode.leaf "nn2" [("energy", [e3]), ("energy_gradients", [a3, b3]), ("hessian", [q3])]) .nil)))) ⟨[], []⟩ = ⟨[("energy", [(e1 + e2 + e3) / 3]), ("energy_gradients", [(a1 + a2 + a3) / 3, (b1 + b2 + b3) / 3]), ("hessian", [(q1 + q2 + q3) / 3])],
       [("ens", [("energy", [(e1 + e2 + e3) / 3]), ("hessian", [(q1 + q2 + q3) / 3]), ("energy_gradients", [(a1 + a2 + a3) / 3, (b1 + b2 + b3) / 3])]), ("nn0", [("energy", [e1]), ("hessian", [q1]), ("energy_gradients", [a1, b1])]), ("nn1", [("energy", [e2]), ("hessian", [q2]), ("energy_gradients", [a2, b2])]), ("nn2", [("energy", [e3]), ("hessian", [q3]), ("energy_gradients", [a3, b3])])]⟩ := by
    simp only [predictRoot]
    rw [hnodeA]
    rfl
  have hf2S : predictForest ["energy", "hessian"] ["energy_gradients"] (MTForest.cons (MTNode.leaf "nn0" [("energy", [e1]), ("energy_gradients", [a1, b1]), ("hessian", [q1])]) (.cons (MTNode.leaf "nn1" [("energy", [e2]), ("energy_gradients", [a2, b2]), ("hessian", [q2])]) (.cons (MTNode.leaf "nn2" [("energy", [e3]), ("energy_gradients", [a3, b3]), ("hessian", [q3])]) .nil))) (⟨[("energy", [e1 + e2 + e3]), ("energy_gradients", [a1 + a2 + a3, b1 + b2 + b3]), ("hessian", [q1 + q2 + q3])],
       [("ens", [("energy", [e1 + e2 + e3]), ("hessian", [q1 + q2 + q3]), ("energy_gradients", [a1 + a2 + a3, b1 + b2 + b3])]), ("nn0", [("energy", [e1]), ("hessian", [q1]), ("energy_gradients", [a1, b1])]), ("nn1", [("energy", [e2]), ("hessian", [q2]), ("energy_gradients", [a2, b2])]), ("nn2", [("energy", [e3]), ("hessian", [q3]), ("energy_gradients", [a3, b3])])]⟩ : TreeMol) = ⟨[("energy", [e1 + e2 + e3]), ("energy_gradients", [a1 + a2 + a3, b1 + b2 + b3]), ("hessian", [q1 + q2 + q3])],
       [("ens", [("energy", [e1 + e2 + e3]), ("hessian", [q1 + q2 + q3]), ("energy_gradients", [a1 + a2 + a3, b1 + b2 + b3])]), ("nn0", [("energy", [e1]), ("hessian", [q1]), ("energy_gradients", [a1, b1])]), ("nn1", [("energy", [e2]), ("hessian", [q2]), ("energy_gradients", [a2, b2])]), ("nn2", [("energy", [e3]), ("hessian", [q3]), ("energy_gradients", [a3, b3])])]⟩ := by
    rw [predictForest_cons_present _ _ _ _ _ (by rfl),
        predictForest_cons_present _ _ _ _ _ (by rfl),
        predictForest_cons_present _ _ _ _ _ (by rfl)]
    rfl
  have hidemS : predictRoot ["energy", "hessian"] ["energy_gradients"] (.comb "ens" "sum" (MTForest.cons (MTNode.leaf "nn0" [("energy", [e1]), ("energy_gradients", [a1, b1]), ("hessian", [q1])]) (.cons (MTNode.leaf "nn1" [("energy", [e2]), ("energy_gradients", [a2, b2]), ("hessian", [q2])]) (.cons (MTNode.leaf "nn2" [("energy", [e3]), ("energy_gradients", [a3, b3]), ("hessian", [q3])]) .nil)))) (⟨[("energy", [e1 + e2 + e3]), ("energy_gradients", [a1 + a2 + a3, b1 + b2 + b3]), ("hessian", [q1 + q2 + q3])],
       [("ens", [("energy", [e1 + e2 + e3]), ("hessian", [q1 + q2 + q3]), ("energy_gradients", [a1 + a2 + a3, b1 + b2 + b3])]), ("nn0", [("energy", [e1]), ("hessian", [q1]), ("energy_gradients", [a1, b1])]), ("nn1", [("energy", [e2]), ("hessian", [q2]), ("energy_gradients", [a2, b2])]), ("nn2", [("energy", [e3]), ("hessian", [q3]), ("energy_gradients", [a3, b3])])]⟩ : TreeMol) = ⟨[("energy", [e1 + e2 + e3]), ("energy_gradients", [a1 + a2 + a3, b1 + b2 + b3]), ("hessian", [q1 + q2 + q3])],
       [("ens", [("energy", [e1 + e2 + e3]), ("hessian", [q1 + q2 + q3]), ("energy_gradients", [a1 + a2 + a3, b1 + b2 + b3])]), ("nn0", [("energy", [e1]), ("hessian", [q1]), ("energy_gradients", [a1, b1])]), ("nn1", [("energy", [e2]), ("hessian", [q2]), ("energy_gradients", [a2, b2])]), ("nn2", [("energy", [e3]), ("hessian", [q3]), ("energy_gradients", [a3, b3])])]⟩ := by
    have hE2 : ensureContainer "ens" (⟨[("energy", [e1 + e2 + e3]), ("energy_gradients", [a1 + a2 + a3, b1 + b2 + b3]), ("hessian", [q1 + q2 + q3])],
       [("ens", [("energy", [e1 + e2 + e3]), ("hessian", [q1 + q2 + q3]), ("energy_gradients", [a1 + a2 + a3, b1 + b2 + b3])]), ("nn0", [("energy", [e1]), ("hessian", [q1]), ("energy_gradients", [a1, b1])]), ("nn1", [("energy", [e2]), ("hessian", [q2]), ("energy_gradients", [a2, b2])]), ("nn2", [("energy", [e3]), ("hessian", [q3]), ("energy_gradients", [a3, b3])])]⟩ : TreeMol) = ⟨[("energy", [e1 + e2 + e3]), ("energy_gradients", [a1 + a2 + a3, b1 + b2 + b3]), ("hessian", [q1 + q2 + q3])],
       [("ens", [("energy", [e1 + e2 + e3]), ("hessian", [q1 + q2 + q3]), ("energy_gradients", [a1 + a2 + a3, b1 + b2 + b3])]), ("nn0", [("energy", [e1]), ("hessian", [q1]), ("energy_gradients", [a1, b1])]), ("nn1", [("energy", [e2]), ("hessian", [q2]), ("energy_gradients", [a2, b2])]), ("nn2", [("energy", [e3]), ("hessian", [q3]), ("energy_gradients", [a3, b3])])]⟩ := by rfl
    have hnode2 : predictNode ["energy", "hessian"] ["energy_gradients"] (.comb "ens" "sum" (MTForest.cons (MTNode.leaf "nn0" [("energy", [e1]), ("energy_gradients", [a1, b1]), ("hessian", [q1])]) (.cons (MTNode.leaf "nn1" [("energy", [e2]), ("energy_gradients", [a2, b2]), ("hessian", [q2])]) (.cons (MTNode.leaf "nn2" [("energy", [e3]), ("energy_gradients", [a3, b3]), ("hessian", [q3])]) .nil)))) (⟨[("energy", [e1 + e2 + e3]), ("energy_gradients", [a1 + a2 + a3, b1 + b2 + b3]), ("hessian", [q1 + q2 + q3])],
       [("ens", [("energy", [e1 + e2 + e3]), ("hessian", [q1 + q2 + q3]), ("energy_gradients", [a1 + a2 + a3, b1 + b2 + b3])]), ("nn0", [("energy", [e1]), ("hessian", [q1]), ("energy_gradients", [a1, b1])]), ("nn1", [("energy", [e2]), ("hessian", [q2]), ("energy_gradients", [a2, b2])]), ("nn2", [("energy", [e3]), ("hessian", [q3]), ("energy_gradients", [a3, b3])])]⟩ : TreeMol) = ⟨[("energy", [e1 + e2 + e3]), ("energy_gradients", [a1 + a2 + a3, b1 + b2 + b3]), ("hessian", [q1 + q2 + q3])],
       [("ens", [("energy", [e1 + e2 + e3]), ("hessian", [q1 + q2 + q3]), ("energy_gradients", [a1 + a2 + a3, b1 + b2 + b3])]), ("nn0", [("energy", [e1]), ("hessian", [q1]), ("energy_gradients", [a1, b1])]), ("nn1", [("energy", [e2]), ("hessian", [q2]), ("energy_gradients", [a2, b2])]), ("nn2", [("energy", [e3]), ("hessian", [q3]), ("energy_gradients", [a3, b3])])]⟩ := by
      simp only [predictNode]
      rw [hE2, hf2S]
      rfl
    simp only [predictRoot]
    rw [hnode2]
    rfl
  have hf2A : predictForest ["energy", "hessian"] ["energy_gradients"] (MTForest.cons (MTNode.leaf "nn0" [("energy", [e1]), ("energy_gradients", [a1, b1]), ("hessian", [q1])]) (.cons (MTNode.leaf "nn1" [("energy", [e2]), ("energy_gradients", [a2, b2]), ("hessian", [q2])]) (.cons (MTNode.leaf "nn2" [("energy", [e3]), ("energy_gradients", [a3, b3]), ("hessian", [q3])]) .nil))) (⟨[("energy", [(e1 + e2 + e3) / 3]), ("energy_gradients", [(a1 + a2 + a3) / 3, (b1 + b2 + b3) / 3]), ("hessian", [(q1 + q2 + q3) / 3])],
       [("ens", [("energy", [(e1 + e2 + e3) / 3]), ("hessian", [(q1 + q2 + q3) / 3]), ("energy_gradients", [(a1 + a2 + a3) / 3, (b1 + b2 + b3) / 3])]), ("nn0", [("energy", [e1]), ("hessian", [q1]), ("energy_gradients", [a1, b1])]), ("nn1", [("energy", [e2]), ("hessian", [q2]), ("energy_gradients", [a2, b2])]), ("nn2", [("energy", [e3]), ("hessian", [q3]), ("energy_gradients", [a3, b3])])]⟩ : TreeMol) = ⟨[("energy", [(e1 + e2 + e3) / 3]), ("energy_gradients", [(a1 + a2 + a3) / 3, (b1 + b2 + b3) / 3]), ("hessian", [(q1 + q2 + q3) / 3])],
       [("ens", [("energy", [(e1 + e2 + e3) / 3]), ("hessian", [(q1 + q2 + q3) / 3]), ("energy_gradients", [(a1 + a2 + a3) / 3, (b1 + b2 + b3) / 3])]), ("nn0", [("energy", [e1]), ("hessian", [q1]), ("energy_gradients", [a1, b1])]), ("nn1", [("energy", [e2]), ("hessian", [q2]), ("energy_gradients", [a2, b2])]), ("nn2", [("energy", [e3]), ("hessian", [q3]), ("energy_gradients", [a3, b3])])]⟩ := by
    rw [predictForest_cons_present _ _ _ _ _ (by rfl),
        predictForest_cons_present _ _ _ _ _ (by rfl),
        predictForest_cons_present _ _ _ _ _ (by rfl)]
    rfl
  have hidemA : predictRoot ["energy", "hessian"] ["energy_gradients"] (.comb "ens" "average" (MTForest.cons (MTNode.leaf "nn0" [("energy", [e1]), ("energy_gradients", [a1, b1]), ("hessian", [q1])]) (.cons (MTNode.leaf "nn1" [("energy", [e2]), ("energy_gradients", [a2, b2]), ("hessian", [q2])]) (.cons (MTNode.leaf "nn2" [("energy", [e3]), ("energy_gradients", [a3, b3]), ("hessian", [q3])]) .nil)))) (⟨[("energy", [(e1 + e2 + e3) / 3]), ("energy_gradients", [(a1 + a2 + a3) / 3, (b1 + b2 + b3) / 3]), ("hessian", [(q1 + q2 + q3) / 3])],
       [("ens", [("energy", [(e1 + e2 + e3) / 3]), ("hessian", [(q1 + q2 + q3) / 3]), ("energy_gradients", [(a1 + a2 + a3) / 3, (b1 + b2 + b3) / 3])]), ("nn0", [("energy", [e1]), ("hessian", [q1]), ("energy_gradients", [a1, b1])]), ("nn1", [("energy", [e2]), ("hessian", [q2]), ("energy_gradients", [a2, b2])]), ("nn2", [("energy", [e3]), ("hessian", [q3]), ("energy_gradients", [a3, b3])])]⟩ : TreeMol) = ⟨[("energy", [(e1 + e2 + e3) / 3]), ("energy_gradients", [(a1 + a2 + a3) / 3, (b1 + b2 + b3) / 3]), ("hessian", [(q1 + q2 + q3) / 3])],
       [("ens", [("energy", [(e1 + e2 + e3) / 3]), ("hessian", [(q1 + q2 + q3) / 3]), ("energy_gradients", [(a1 + a2 + a3) / 3, (b1 + b2 + b3) / 3])]), ("nn0", [("energy", [e1]), ("hessian", [q1]), ("energy_gradients", [a1, b1])]), ("nn1", [("energy", [e2]), ("hessian", [q2]), ("energy_gradients", [a2, b2])]), ("nn2", [("energy", [e3]), ("hessian", [q3]), ("energy_gradients", [a3, b3])])]⟩ := by
    have hE2 : ensureContainer "ens" (⟨[("energy", [(e1 + e2 + e3) / 3]), ("energy_gradients", [(a1 + a2 + a3) / 3, (b1 + b2 + b3) / 3]), ("hessian", [(q1 + q2 + q3) / 3])],
       [("ens", [("energy", [(e1 + e2 + e3) / 3]), ("hessian", [(q1 + q2 + q3) / 3]), ("energy_gradients", [(a1 + a2 + a3) / 3, (b1 + b2 + b3) / 3])]), ("nn0", [("energy", [e1]), ("hessian", [q1]), ("energy_gradients", [a1, b1])]), ("nn1", [("energy", [e2]), ("hessian", [q2]), ("energy_gradients", [a2, b2])]), ("nn2", [("energy", [e3]), ("hessian", [q3]), ("energy_gradients", [a3, b3])])]⟩ : TreeMol) = ⟨[("energy", [(e1 + e2 + e3) / 3]), ("energy_gradients", [(a1 + a2 + a3) / 3, (b1 + b2 + b3) / 3]), ("hessian", [(q1 + q2 + q3) / 3])],
       [("ens", [("energy", [(e1 + e2 + e3) / 3]), ("hessian", [(q1 + q2 + q3) / 3]), ("energy_gradients", [(a1 + a2 + a3) / 3, (b1 + b2 + b3) / 3])]), ("nn0", [("energy", [e1]), ("hessian", [q1]), ("energy_gradients", [a1, b1])]), ("nn1", [("energy", [e2]), ("hessian", [q2]), ("energy_gradients", [a2, b2])]), ("nn2", [("energy", [e3]), ("hessian", [q3]), ("energy_gradients", [a3, b3])])]⟩ := by rfl
    have hnode2 : predictNode ["energy", "hessian"] ["energy_gradients"] (.comb "ens" "average" (MTForest.cons (MTNode.leaf "nn0" [("energy", [e1]), ("energy_gradients", [a1, b1]), ("hessian", [q1])]) (.cons (MTNode.leaf "nn1" [("energy", [e2]), ("energy_gradients", [a2, b2]), ("hessian", [q2])]) (.cons (MTNode.leaf "nn2" [("energy", [e3]), ("energy_gradients", [a3, b3]), ("hessian", [q3])]) .nil)))) (⟨[("energy", [(e1 + e2 + e3) / 3]), ("energy_gradients", [(a1 + a2 + a3) / 3, (b1 + b2 + b3) / 3]), ("hessian", [(q1 + q2 + q3) / 3])],
       [("ens", [("energy", [(e1 + e2 + e3) / 3]), ("hessian", [(q1 + q2 + q3) / 3]), ("energy_gradients", [(a1 + a2 + a3) / 3, (b1 + b2 + b3) / 3])]), ("nn0", [("energy", [e1]), ("hessian", [q1]), ("energy_gradients", [a1, b1])]), ("nn1", [("energy", [e2]), ("hessian", [q2]), ("energy_gradients", [a2, b2])]), ("nn2", [("energy", [e3]), ("hessian", [q3]), ("energy_gradients", [a3, b3])])]⟩ : TreeMol) = ⟨[("energy", [(e1 + e2 + e3) / 3]), ("energy_gradients", [(a1 + a2 + a3) / 3, (b1 + b2 + b3) / 3]), ("hessian", [(q1 + q2 + q3) / 3])],
       [("ens", [("energy", [(e1 + e2 + e3) / 3]), ("hessian", [(q1 + q2 + q3) / 3]), ("energy_gradients", [(a1 + a2 + a3) / 3, (b1 + b2 + b3) / 3])]), ("nn0", [("energy", [e1]), ("hessian", [q1]), ("energy_gradients", [a1, b1])]), ("nn1", [("energy", [e2]), ("hessian", [q2]), ("energy_gradients", [a2, b2])]), ("nn2", [("energy", [e3]), ("hessian", [q3]), ("energy_gradients", [a3, b3])])]⟩ := by
      simp only [predictNode]
      rw [hE2, hf2A]
      rfl
    simp only [predictRoot]
    rw [hnode2]
    rfl
  refine ⟨?_, ?_, ?_, ?_, ?_, ?_, ?_, ?_, ?_⟩
  · rw [hrootS]
    rfl
  · rw [hrootS]
    rfl
  · rw [hrootS]
    rfl
  · rw [hrootS]
    rfl
  · rw [hrootA]
    rfl
  · rw [hrootA]
    rfl
  · rw [hrootA]
    rfl
  · rw [hrootS]
    exact hidemS
  · rw [hrootA]
    exact hidemA

/-! ## Section 8: krr.train kernel matrix construction (models.py lines 562-614)

The kernel matrix for N training geometries (Natoms atoms each) has one
value row per geometry and, when xyz-derivative labels are trained,
3*Natoms derivative rows per geometry appended after the N value rows:

    kernel_matrix = np.zeros((S, S)) + np.identity(S)*lambda
    for ii in range(N):
        vd = kernel_function(xyz[ii], xyz[ii], ...)
        kernel_matrix[ii][ii] += vd['value']
        if grad:
            kernel_matrix[ii, N+ii*3*Na : N+(ii+1)*3*Na] += vd['gradients']
            kernel_matrix[N+ii*3*Na : ..., N+ii*3*Na : ...] += vd['Hessian']
        for jj in range(ii+1, N):
            vd = kernel_function(xyz[ii], xyz[jj], ...)
            kernel_matrix[ii][jj] += vd['value']
            kernel_matrix[jj][ii] += vd['value']
            if grad:
                kernel_matrix[jj, N+ii*3*Na : ...] = vd['gradients']
                kernel_matrix[ii, N+jj*3*Na : ...] = vd['gradients_j']
                kernel_matrix[N+ii*3*Na : ..., N+jj*3*Na : ...] += vd['Hessian']
                kernel_matrix[N+jj*3*Na : ..., N+ii*3*Na : ...] += vd['Hessian']
    if grad:
        kernel_matrix[N:, :N] = kernel_matrix[:N, N:].T

The kernel (krr.gaussian_kernel_function with the RE descriptor of
krr.RE_descriptor_tensor / kreg.get_equilibrium_distances) is
k(x, y) = exp(||d(x) - d(y)||^2 / (-2 sigma^2)) with d_m = Req_m / r_m over
the atom pairs m = (i, j), i < j, in row order, r_m the interatomic
distance.  The source obtains 'gradients', 'gradients_j' and 'Hessian' by
torch.autograd on that expression; the embedding uses the closed forms of
those derivatives, obtained by the chain rule:

    ddm/dx[i][c] = -Req_m (x[i][c] - x[j][c]) / r_m^3   (the Jacobian J(x);
                   the j-atom entry is the negative, other atoms 0)
    dk/dx_a      = -(k/s^2) * sum_m Delta_m Jx[m][a],   Delta = d(x)-d(y)
    dk/dy_b      = +(k/s^2) * sum_m Delta_m Jy[m][b]
    d2k/dx_a dy_b = (k/s^2) * sum_m Jx[m][a] Jy[m][b]
                    - (k/s^4) * (sum_m Delta_m Jx[m][a]) (sum_n Delta_n Jy[n][b])

A geometry is a list of atoms, each a list of 3 coordinates; a flattened
coordinate index a addresses atom a/3, coordinate a%3.  The matrix is
embedded as a total function on pairs of natural indices (entries outside
the actual S x S range are irrelevant to the claims). -/

/-- Squared Euclidean distance between two coordinate triples. -/
noncomputable def distance_sq (a b : List ℝ) : ℝ :=
  ((a.zip b).map (fun p => (p.1 - p.2) ^ 2)).sum

/-- Interatomic distance (krr.distance_tensor). -/
noncomputable def distance (a b : List ℝ) : ℝ := Real.sqrt (distance_sq a b)

/-- Atom pairs (i, j) with i < j in row order (icount order of
krr.RE_descriptor_tensor). -/
def atomPairs (n : ℕ) : List (ℕ × ℕ) :=
  (List.range n).flatMap (fun i => ((List.range n).drop (i + 1)).map (fun j => (i, j)))

/-- The RE descriptor: Req_m divided by the instantaneous distance of
pair m (krr.RE_descriptor_tensor). -/
noncomputable def RE_descriptor (Req : List ℝ) (x : List (List ℝ)) : List ℝ :=
  ((atomPairs x.length).zip Req).map
    (fun pr => pr.2 / distance (x.getD pr.1.1 []) (x.getD pr.1.2 []))

/-- The kernel value of krr.gaussian_kernel_function:
exp(sum of squared descriptor differences / (-2 sigma^2)). -/
noncomputable def kernel_value (sigma : ℝ) (Req : List ℝ) (xi xj : List (List ℝ)) : ℝ :=
  Real.exp ((((RE_descriptor Req xi).zip (RE_descriptor Req xj)).map
    (fun p => (p.1 - p.2) ^ 2)).sum / (-2 * sigma ^ 2))

/-- Descriptor Jacobian entries d d_m / d x[r][c] (closed form of the
autograd derivative of the RE descriptor). -/
noncomputable def RE_jacobian (Req : List ℝ) (x : List (List ℝ)) (r c : ℕ) : List ℝ :=
  ((atomPairs x.length).zip Req).map (fun pr =>
    let xi := x.getD pr.1.1 []
    let xj := x.getD pr.1.2 []
    let rij := distance xi xj
    if r = pr.1.1 then -pr.2 * (xi.getD c 0 - xj.getD c 0) / rij ^ 3
    else if r = pr.1.2 then pr.2 * (xi.getD c 0 - xj.getD c 0) / rij ^ 3
    else 0)

/-- Dot product of two equally long real lists. -/
noncomputable def dotL (u v : List ℝ) : ℝ := ((u.zip v).map (fun p => p.1 * p.2)).sum

/-- Descriptor difference d(xi) - d(xj). -/
noncomputable def descrDelta (Req : List ℝ) (xi xj : List (List ℝ)) : List ℝ :=
  ((RE_descriptor Req xi).zip (RE_descriptor Req xj)).map (fun p => p.1 - p.2)

/-- Closed form of vd['gradients']: dk/dxi at flattened coordinate a. -/
noncomputable def kernel_gradients (sigma : ℝ) (Req : List ℝ) (xi xj : List (List ℝ))
    (a : ℕ) : ℝ :=
  -(kernel_value sigma Req xi xj / sigma ^ 2)
    * dotL (descrDelta Req xi xj) (RE_jacobian Req xi (a / 3) (a % 3))

/-- Closed form of vd['gradients_j']: dk/dxj at flattened coordinate b. -/
noncomputable def kernel_gradients_j (sigma : ℝ) (Req : List ℝ) (xi xj : List (List ℝ))
    (b : ℕ) : ℝ :=
  (kernel_value sigma Req xi xj / sigma ^ 2)
    * dotL (descrDelta Req xi xj) (RE_jacobian Req xj (b / 3) (b % 3))

/-- Closed form of vd['Hessian']: d2k/dxi_a dxj_b. -/
noncomputable def kernel_hessian (sigma : ℝ) (Req : List ℝ) (xi xj : List (List ℝ))
    (a b : ℕ) : ℝ :=
  (kernel_value sigma Req xi xj / sigma ^ 2)
      * dotL (RE_jacobian Req xi (a / 3) (a % 3)) (RE_jacobian Req xj (b / 3) (b % 3))
    - (kernel_value sigma Req xi xj / sigma ^ 4)
      * (dotL (descrDelta Req xi xj) (RE_jacobian Req xi (a / 3) (a % 3)))
      * (dotL (descrDelta Req xi xj) (RE_jacobian Req xj (b / 3) (b % 3)))

/-- The kernel matrix as a total entry function. -/
abbrev KMat := ℕ → ℕ → ℝ

/-- In-place += on one matrix entry. -/
noncomputable def addEntry (M : KMat) (i j : ℕ) (v : ℝ) : KMat :=
  fun a b => if a = i ∧ b = j then M a b + v else M a b

/-- In-place += on a length-sz row slice starting at column c0
(the slice assignment of line 602). -/
noncomputable def addRowSlice (M : KMat) (r c0 sz : ℕ) (v : ℕ → ℝ) : KMat :=
  fun a b => if a = r ∧ c0 ≤ b ∧ b < c0 + sz then M a b + v (b - c0) else M a b

/-- In-place = on a length-sz row slice starting at column c0
(the slice assignments of lines 609-610). -/
noncomputable def setRowSlice (M : KMat) (r c0 sz : ℕ) (v : ℕ → ℝ) : KMat :=
  fun a b => if a = r ∧ c0 ≤ b ∧ b < c0 + sz then v (b - c0) else M a b

/-- In-place += on an sz x sz block with top-left corner (r0, c0)
(the Hessian block assignments of lines 603, 611-612). -/
noncomputable def addBlock (M : KMat) (r0 c0 sz : ℕ) (H : ℕ → ℕ → ℝ) : KMat :=
  fun a b => if r0 ≤ a ∧ a < r0 + sz ∧ c0 ≤ b ∧ b < c0 + sz then
      M a b + H (a - r0) (b - c0)
    else M a b

/-- Shallow embedding of the kernel-matrix assembly of krr.train
(models.py lines 595-614) for a database of geometries xyz, with
train_property on and optionally train_xyz_derivative_property on. -/
noncomputable def krr_kernel_matrix (sigma lam : ℝ) (Req : List ℝ)
    (xyz : List (List (List ℝ))) (train_grad : Bool) : KMat :=
  let N := xyz.length
  let Na3 := 3 * (xyz.getD 0 []).length
  let base : KMat := fun a b => if a = b then lam else 0
  let M1 := (List.range N).foldl (fun M ii =>
    let xi := xyz.getD ii []
    let M := addEntry M ii ii (kernel_value sigma Req xi xi)
    let M := if train_grad then
        let M := addRowSlice M ii (N + ii * Na3) Na3 (kernel_gradients sigma Req xi xi)
        addBlock M (N + ii * Na3) (N + ii * Na3) Na3 (kernel_hessian sigma Req xi xi)
      else M
    ((List.range N).drop (ii + 1)).foldl (fun M jj =>
      let xj := xyz.getD jj []
      let M := addEntry M ii jj (kernel_value sigma Req xi xj)
      let M := addEntry M jj ii (kernel_value sigma Req xi xj)
      if train_grad then
        let M := setRowSlice M jj (N + ii * Na3) Na3 (kernel_gradients sigma Req xi xj)
        let M := setRowSlice M ii (N + jj * Na3) Na3 (kernel_gradients_j sigma Req xi xj)
        let M := addBlock M (N + ii * Na3) (N + jj * Na3) Na3 (kernel_hessian sigma Req xi xj)
        addBlock M (N + jj * Na3) (N + ii * Na3) Na3 (kernel_hessian sigma Req xi xj)
      else M) M) base
  if train_grad then
    fun a b => if N ≤ a ∧ b < N then M1 b a else M1 a b
  else M1

/-! ## Theorem for claim C8 -/

set_option maxRecDepth 8000 in
/-- C8 (the code violates the claim): for the two-molecule training set
with diatomic geometries x0 = [(0,0,0), (1,0,0)] and x1 = [(0,0,0), (0,2,0)],
equilibrium distances Req = [1], sigma = 1 and derivative training on, the
kernel matrix built by krr.train is NOT symmetric: the (2, 9) entry (first
gradient row of molecule 0 against second gradient column of molecule 1)
holds the mixed-derivative value (3/16) exp(-1/8) > 0 while the mirrored
(9, 2) entry holds 0, because lines 611-612 write the same untransposed
Hessian block to both (ii, jj) and (jj, ii) positions and the mixed
d2k/dx dy block of the Gaussian-RE kernel is not a symmetric matrix.  The
ridge term lambda only touches the diagonal, so the asymmetry is
independent of it. -/
theorem C8_kernel_matrix_not_symmetric (lam : ℝ) :
    krr_kernel_matrix 1 lam [1] [[[0, 0, 0], [1, 0, 0]], [[0, 0, 0], [0, 2, 0]]] true 2 9
      = 3 / 16 * Real.exp (-(1 / 8))
    ∧ krr_kernel_matrix 1 lam [1] [[[0, 0, 0], [1, 0, 0]], [[0, 0, 0], [0, 2, 0]]] true 9 2
      = 0
    ∧ krr_kernel_matrix 1 lam [1] [[[0, 0, 0], [1, 0, 0]], [[0, 0, 0], [0, 2, 0]]] true 2 9
      ≠ krr_kernel_matrix 1 lam [1] [[[0, 0, 0], [1, 0, 0]], [[0, 0, 0], [0, 2, 0]]] true 9 2 := by
  have h29 : krr_kernel_matrix 1 lam [1] [[[0, 0, 0], [1, 0, 0]], [[0, 0, 0], [0, 2, 0]]] true 2 9
      = 0 + kernel_hessian 1 [1] [[0, 0, 0], [1, 0, 0]] [[0, 0, 0], [0, 2, 0]] 0 1 := by
    rfl
  have h92 : krr_kernel_matrix 1 lam [1] [[[0, 0, 0], [1, 0, 0]], [[0, 0, 0], [0, 2, 0]]] true 9 2
      = 0 + kernel_hessian 1 [1] [[0, 0, 0], [1, 0, 0]] [[0, 0, 0], [0, 2, 0]] 1 0 := by
    rfl
  have hap : atomPairs 2 = [(0, 1)] := by decide
  have hd1 : distance [(0:ℝ), 0, 0] [1, 0, 0] = 1 := by
    have : distance_sq [(0:ℝ), 0, 0] [1, 0, 0] = 1 := by simp [distance_sq]
    rw [distance, this, Real.sqrt_one]
  have hd2 : distance [(0:ℝ), 0, 0] [0, 2, 0] = 2 := by
    have : distance_sq [(0:ℝ), 0, 0] [0, 2, 0] = 4 := by
      simp [distance_sq]
      norm_num
    rw [distance, this, show (4:ℝ) = 2 ^ 2 by norm_num, Real.sqrt_sq (by norm_num : (0:ℝ) ≤ 2)]
  have hH1 : kernel_hessian 1 [1] [[(0:ℝ), 0, 0], [1, 0, 0]] [[0, 0, 0], [0, 2, 0]] 0 1
      = 3 / 16 * Real.exp (-(1 / 8)) := by
    simp [kernel_hessian, kernel_value, RE_descriptor, RE_jacobian, descrDelta, dotL,
      hap, hd1, hd2]
    norm_num
    ring_nf
  have hH0 : kernel_hessian 1 [1] [[(0:ℝ), 0, 0], [1, 0, 0]] [[0, 0, 0], [0, 2, 0]] 1 0
      = 0 := by
    simp [kernel_hessian, kernel_value, RE_descriptor, RE_jacobian, descrDelta, dotL,
      hap, hd1, hd2]
  have hpos : (0:ℝ) < 3 / 16 * Real.exp (-(1 / 8)) := by positivity
  refine ⟨by rw [h29, hH1]; ring, by rw [h92, hH0]; ring, ?_⟩
  rw [h29, h92, hH1, hH0]
  intro hcontra
  rw [add_zero] at hcontra
  exact hpos.ne (by linarith)
